import Mathlib

/-!
Verification of the space-elevator simulator core: the physics model
(src/src/simulation/physics.js), the temporal state machine
(src/src/simulation/state.js, final revision), the milestone logic
(src/src/main.js) and the first-person movement controller
(src/src/controls/FirstPersonController.js), together with the admin API
handlers (src/api/admin).  Numeric constants come from
src/src/constants.js.  The state machine works over exact rationals; the
analytic facts about effective gravity and the controller are stated over
the reals with the same rational constants.
-/

set_option maxRecDepth 2048

namespace SpaceElevator

/-- Constant from src/src/constants.js: Earth radius in km. -/
def EARTH_RADIUS : ℚ := 6371

/-- Constant from src/src/constants.js: total cable length in km. -/
def CABLE_LENGTH : ℚ := 100000

/-- Constant from src/src/constants.js: geostationary altitude in km. -/
def GEO_ALTITUDE : ℚ := 35786

/-- Constant from src/src/constants.js: default cable speed in km/h. -/
def DEFAULT_SPEED_KMH : ℚ := 300

/-- Constant from src/src/constants.js: Earth rotation rate, rad/s (7.2921e-5). -/
def EARTH_ROTATION_RATE : ℚ := 72921 / 10 ^ 9

/-- Constant from src/src/constants.js: surface gravity in m/s2 (9.814),
whose comment in the source claims it is tuned so the g = 0 crossing matches
GEO_ALTITUDE exactly. -/
def SURFACE_GRAVITY : ℚ := 9814 / 1000

/-- Constant from src/src/constants.js: ground station altitude, 0.01 km. -/
def GROUND_STATION_ALTITUDE : ℚ := 1 / 100

/-- Constant from src/src/constants.js: wait at each end, 10 minutes in ms. -/
def WAIT_DURATION_MS : ℚ := 10 * 60 * 1000

/-- Constant from src/src/constants.js: one-way travel time in ms,
(CABLE_LENGTH / DEFAULT_SPEED_KMH) * 3600000. -/
def TRAVEL_DURATION_MS : ℚ := CABLE_LENGTH / DEFAULT_SPEED_KMH * 3600000

/-- Constant from src/src/constants.js: full round-trip duration in ms. -/
def CYCLE_DURATION_MS : ℚ := 2 * (TRAVEL_DURATION_MS + WAIT_DURATION_MS)

/-- Constant from src/src/constants.js: Date.UTC(2026, 0, 1) in ms. -/
def CYCLE_EPOCH_MS : ℚ := 1767225600000

/-- getEffectiveGravity from src/src/simulation/physics.js, over the reals:
gravitational term SURFACE_GRAVITY * (R/r) * (R/r) minus centrifugal term
OMEGA * OMEGA * r * 1000, with r = R + altitudeKm. -/
noncomputable def getEffectiveGravity (altitudeKm : ℝ) : ℝ :=
  (SURFACE_GRAVITY : ℝ) * ((EARTH_RADIUS : ℝ) / ((EARTH_RADIUS : ℝ) + altitudeKm))
      * ((EARTH_RADIUS : ℝ) / ((EARTH_RADIUS : ℝ) + altitudeKm))
    - (EARTH_ROTATION_RATE : ℝ) * (EARTH_ROTATION_RATE : ℝ)
      * ((EARTH_RADIUS : ℝ) + altitudeKm) * 1000

/-- The same function over the rationals, used by the state machine to fill
the derived effectiveGravityG field. -/
def getEffectiveGravityQ (altitudeKm : ℚ) : ℚ :=
  SURFACE_GRAVITY * (EARTH_RADIUS / (EARTH_RADIUS + altitudeKm))
      * (EARTH_RADIUS / (EARTH_RADIUS + altitudeKm))
    - EARTH_ROTATION_RATE * EARTH_ROTATION_RATE * (EARTH_RADIUS + altitudeKm) * 1000

lemma getEffectiveGravity_eval (a : ℝ) :
    getEffectiveGravity a =
      (9814 / 1000) * (6371 / (6371 + a)) * (6371 / (6371 + a))
        - (72921 / 10 ^ 9) * (72921 / 10 ^ 9) * (6371 + a) * 1000 := by
  simp only [getEffectiveGravity, SURFACE_GRAVITY, EARTH_RADIUS, EARTH_ROTATION_RATE]
  push_cast
  ring

lemma getEffectiveGravity_strictAntiOn :
    StrictAntiOn getEffectiveGravity (Set.Icc (0 : ℝ) 100000) := by
  intro a ha b hb hab
  rw [getEffectiveGravity_eval, getEffectiveGravity_eval]
  have h1 : (0 : ℝ) < 6371 + a := by linarith [ha.1]
  have h2 : (0 : ℝ) < 6371 + b := by linarith [hb.1]
  have hq : (6371 : ℝ) / (6371 + b) < 6371 / (6371 + a) :=
    div_lt_div_of_pos_left (by norm_num) h1 (by linarith)
  have hq0 : (0 : ℝ) ≤ 6371 / (6371 + b) := by positivity
  have hsq : (6371 : ℝ) / (6371 + b) * (6371 / (6371 + b))
      < 6371 / (6371 + a) * (6371 / (6371 + a)) := mul_self_lt_mul_self hq0 hq
  nlinarith [hsq]

lemma getEffectiveGravity_pos_35784 : 0 < getEffectiveGravity 35784 := by
  rw [getEffectiveGravity_eval]
  norm_num

lemma getEffectiveGravity_neg_35785 : getEffectiveGravity 35785 < 0 := by
  rw [getEffectiveGravity_eval]
  norm_num

lemma getEffectiveGravity_neg_near_geo :
    getEffectiveGravity ((GEO_ALTITUDE : ℝ) * (1 - 1 / 1000000)) < 0 := by
  have : ((GEO_ALTITUDE : ℝ) * (1 - 1 / 1000000)) = 17892982107 / 500000 := by
    simp only [GEO_ALTITUDE]
    push_cast
    norm_num
  rw [this, getEffectiveGravity_eval]
  norm_num

lemma getEffectiveGravity_continuousOn :
    ContinuousOn getEffectiveGravity (Set.Icc (0 : ℝ) 100000) := by
  have hne : ∀ x ∈ Set.Icc (0 : ℝ) 100000, (EARTH_RADIUS : ℝ) + x ≠ 0 := by
    intro x hx
    have : (0 : ℝ) ≤ x := hx.1
    simp only [EARTH_RADIUS]
    push_cast
    linarith
  have hdiv : ContinuousOn (fun x : ℝ => (EARTH_RADIUS : ℝ) / ((EARTH_RADIUS : ℝ) + x))
      (Set.Icc (0 : ℝ) 100000) :=
    continuousOn_const.div (by fun_prop) hne
  unfold getEffectiveGravity
  exact ((continuousOn_const.mul hdiv).mul hdiv).sub
    (((continuousOn_const.mul continuousOn_const).mul (by fun_prop)).mul continuousOn_const)

/-- C1: getEffectiveGravity is continuous and strictly decreasing on the whole
cable range, but its zero crossing does NOT match GEO_ALTITUDE = 35786 to 1e-6
relative tolerance: the function is still negative at 35786 * (1 - 1e-6), and
in fact already changes sign between 35784 and 35785, about 1.7 km below the
configured geostationary constant.  This contradicts the tuning comment on
SURFACE_GRAVITY in src/src/constants.js. -/
theorem gravity_zero_crossing_misses_geo :
    ContinuousOn getEffectiveGravity (Set.Icc (0 : ℝ) 100000) ∧
    StrictAntiOn getEffectiveGravity (Set.Icc (0 : ℝ) 100000) ∧
    0 < getEffectiveGravity 0 ∧
    0 < getEffectiveGravity 35784 ∧
    getEffectiveGravity 35785 < 0 ∧
    getEffectiveGravity ((GEO_ALTITUDE : ℝ) * (1 - 1 / 1000000)) < 0 := by
  refine ⟨getEffectiveGravity_continuousOn, getEffectiveGravity_strictAntiOn, ?_,
    getEffectiveGravity_pos_35784, getEffectiveGravity_neg_35785,
    getEffectiveGravity_neg_near_geo⟩
  rw [getEffectiveGravity_eval]
  norm_num

/-! Temporal state machine, final revision of src/src/simulation/state.js. -/

/-- Truncated integer part, the rounding JavaScript uses for the % operator
(toward zero). -/
def jsTrunc (q : ℚ) : ℤ := if 0 ≤ q then ⌊q⌋ else ⌈q⌉

/-- The JavaScript remainder operator a % b: the remainder carries the sign
of the dividend. -/
def jsMod (a b : ℚ) : ℚ := a - b * jsTrunc (a / b)

/-- Phase of a travel cycle. -/
inductive Phase
  | waitGround
  | ascend
  | waitTop
  | descend
deriving DecidableEq

/-- Output record of getUTCSyncState. -/
structure UTCSyncState where
  altitudeKm : ℚ
  direction : ℤ
  waitRemainingMs : ℚ
  phase : Phase
  travelElapsedMs : ℚ
  travelRemainingMs : ℚ
deriving DecidableEq

/-- The positive-modulo computation in getUTCSyncState:
((elapsed % CYCLE_DURATION_MS) + CYCLE_DURATION_MS) % CYCLE_DURATION_MS. -/
def cyclePosOf (utcMs : ℚ) : ℚ :=
  jsMod (jsMod (utcMs - CYCLE_EPOCH_MS) CYCLE_DURATION_MS + CYCLE_DURATION_MS)
    CYCLE_DURATION_MS

/-- The four-phase branch body of getUTCSyncState, as a function of the
cycle position. -/
def syncFromCyclePos (cyclePos : ℚ) : UTCSyncState :=
  let phase1End := WAIT_DURATION_MS
  let phase2End := WAIT_DURATION_MS + TRAVEL_DURATION_MS
  let phase3End := 2 * WAIT_DURATION_MS + TRAVEL_DURATION_MS
  let TRAVEL_RANGE := CABLE_LENGTH - GROUND_STATION_ALTITUDE
  if cyclePos < phase1End then
    { altitudeKm := GROUND_STATION_ALTITUDE
      direction := 0
      waitRemainingMs := phase1End - cyclePos
      phase := .waitGround
      travelElapsedMs := 0
      travelRemainingMs := 0 }
  else if cyclePos < phase2End then
    { altitudeKm := GROUND_STATION_ALTITUDE
        + (cyclePos - phase1End) / TRAVEL_DURATION_MS * TRAVEL_RANGE
      direction := 1
      waitRemainingMs := 0
      phase := .ascend
      travelElapsedMs := cyclePos - phase1End
      travelRemainingMs := phase2End - cyclePos }
  else if cyclePos < phase3End then
    { altitudeKm := CABLE_LENGTH
      direction := 0
      waitRemainingMs := phase3End - cyclePos
      phase := .waitTop
      travelElapsedMs := 0
      travelRemainingMs := 0 }
  else
    { altitudeKm := CABLE_LENGTH - (cyclePos - phase3End) / TRAVEL_DURATION_MS * TRAVEL_RANGE
      direction := -1
      waitRemainingMs := 0
      phase := .descend
      travelElapsedMs := cyclePos - phase3End
      travelRemainingMs := CYCLE_DURATION_MS - cyclePos }

/-- getUTCSyncState from src/src/simulation/state.js: the pure real-time
state as a function of the UTC timestamp. -/
def getUTCSyncState (utcMs : ℚ) : UTCSyncState :=
  syncFromCyclePos (cyclePosOf utcMs)

lemma CYCLE_DURATION_MS_pos : (0 : ℚ) < CYCLE_DURATION_MS := by
  norm_num [CYCLE_DURATION_MS, TRAVEL_DURATION_MS, WAIT_DURATION_MS, CABLE_LENGTH,
    DEFAULT_SPEED_KMH]

lemma ceil_eq_floor_add_one_of_not_int {q : ℚ} (h : (⌈q⌉ : ℚ) ≠ q) : ⌈q⌉ = ⌊q⌋ + 1 := by
  have h1 : ⌈q⌉ ≤ ⌊q⌋ + 1 := Int.ceil_le_floor_add_one q
  have h2 : (⌊q⌋ : ℚ) ≤ q := Int.floor_le q
  have h3 : q ≤ (⌈q⌉ : ℚ) := Int.le_ceil q
  have h4 : q < (⌈q⌉ : ℚ) := lt_of_le_of_ne h3 (fun he => h he.symm)
  have h5 : ⌊q⌋ < ⌈q⌉ := by exact_mod_cast lt_of_le_of_lt h2 h4
  omega

/-- The double-modulo construction equals the mathematical (Euclidean)
fractional remainder: cyclePosOf t = C * fract((t - epoch)/C). -/
lemma cyclePosOf_eq_fract (t : ℚ) :
    cyclePosOf t = CYCLE_DURATION_MS * Int.fract ((t - CYCLE_EPOCH_MS) / CYCLE_DURATION_MS) := by
  have hC : (0 : ℚ) < CYCLE_DURATION_MS := CYCLE_DURATION_MS_pos
  have hC0 : CYCLE_DURATION_MS ≠ 0 := ne_of_gt hC
  set C := CYCLE_DURATION_MS with hCdef
  set e := t - CYCLE_EPOCH_MS with hedef
  set q := e / C with hqdef
  have heq : e = C * q := by
    rw [hqdef]
    field_simp
  unfold cyclePosOf jsMod jsTrunc
  rw [← hedef, ← hCdef, ← hqdef]
  by_cases h0 : 0 ≤ q
  · rw [if_pos h0]
    have hm1 : e - C * (⌊q⌋ : ℚ) = C * Int.fract q := by
      rw [heq, Int.fract]
      ring
    rw [hm1]
    have harg : (C * Int.fract q + C) / C = Int.fract q + 1 := by
      field_simp
      ring
    rw [harg]
    have hpos : (0 : ℚ) ≤ Int.fract q + 1 := by
      have := Int.fract_nonneg q
      linarith
    rw [if_pos hpos]
    have hfl : ⌊Int.fract q + 1⌋ = 1 := by
      rw [Int.floor_add_one, Int.floor_fract]
      norm_num
    rw [hfl]
    push_cast
    ring
  · rw [if_neg h0]
    push_neg at h0
    have hm1 : e - C * (⌈q⌉ : ℚ) = C * (q - ⌈q⌉) := by
      rw [heq]
      ring
    rw [hm1]
    by_cases hint : (⌈q⌉ : ℚ) = q
    · have hd : q - (⌈q⌉ : ℚ) = 0 := by rw [hint]; ring
      rw [hd]
      have harg : (C * (0 : ℚ) + C) / C = 1 := by field_simp
      rw [harg]
      rw [if_pos (by norm_num : (0:ℚ) ≤ 1)]
      have hq_int : Int.fract q = 0 := by
        rw [← hint, Int.fract_intCast]
      rw [hq_int]
      norm_num
    · have hceil : ⌈q⌉ = ⌊q⌋ + 1 := ceil_eq_floor_add_one_of_not_int hint
      have hfr : q - (⌈q⌉ : ℚ) + 1 = Int.fract q := by
        rw [Int.fract, hceil]
        push_cast
        ring
      have harg : (C * (q - ⌈q⌉) + C) / C = q - ⌈q⌉ + 1 := by
        field_simp
        ring
      rw [harg]
      have hlow : (0 : ℚ) < q - ⌈q⌉ + 1 := by
        have := Int.ceil_lt_add_one q
        linarith
      have hhigh : q - (⌈q⌉ : ℚ) + 1 < 1 := by
        have h3 : q ≤ (⌈q⌉ : ℚ) := Int.le_ceil q
        have h4 : q < (⌈q⌉ : ℚ) := lt_of_le_of_ne h3 (fun he => hint he.symm)
        linarith
      rw [if_pos hlow.le]
      have hfl : ⌊q - (⌈q⌉ : ℚ) + 1⌋ = 0 := by
        rw [Int.floor_eq_zero_iff]
        constructor
        · exact hlow.le
        · exact hhigh
      rw [hfl]
      rw [← hfr]
      push_cast
      ring

lemma cyclePosOf_periodic (t : ℚ) :
    cyclePosOf (t + CYCLE_DURATION_MS) = cyclePosOf t := by
  rw [cyclePosOf_eq_fract, cyclePosOf_eq_fract]
  have hC0 : CYCLE_DURATION_MS ≠ 0 := ne_of_gt CYCLE_DURATION_MS_pos
  have harg : (t + CYCLE_DURATION_MS - CYCLE_EPOCH_MS) / CYCLE_DURATION_MS
      = (t - CYCLE_EPOCH_MS) / CYCLE_DURATION_MS + 1 := by
    field_simp
    ring
  rw [harg]
  rw [show ((t - CYCLE_EPOCH_MS) / CYCLE_DURATION_MS + 1)
      = ((t - CYCLE_EPOCH_MS) / CYCLE_DURATION_MS + (1 : ℤ)) by push_cast; ring]
  rw [Int.fract_add_int]

lemma cyclePosOf_nonneg (t : ℚ) : 0 ≤ cyclePosOf t := by
  rw [cyclePosOf_eq_fract]
  exact mul_nonneg CYCLE_DURATION_MS_pos.le (Int.fract_nonneg _)

lemma cyclePosOf_lt (t : ℚ) : cyclePosOf t < CYCLE_DURATION_MS := by
  rw [cyclePosOf_eq_fract]
  have h := Int.fract_lt_one ((t - CYCLE_EPOCH_MS) / CYCLE_DURATION_MS)
  calc CYCLE_DURATION_MS * Int.fract ((t - CYCLE_EPOCH_MS) / CYCLE_DURATION_MS)
      < CYCLE_DURATION_MS * 1 := by
        exact mul_lt_mul_of_pos_left h CYCLE_DURATION_MS_pos
    _ = CYCLE_DURATION_MS := mul_one _

/-- C5: getUTCSyncState is a pure function of the UTC timestamp and is
periodic with period CYCLE_DURATION_MS: every field of the result (phase,
altitude, direction, and the derived timers) is identical at t and at
t + CYCLE_DURATION_MS. -/
theorem getUTCSyncState_periodic (t : ℚ) :
    getUTCSyncState (t + CYCLE_DURATION_MS) = getUTCSyncState t := by
  unfold getUTCSyncState
  rw [cyclePosOf_periodic]

/-! Cinema mode: computeCinemaState from src/src/simulation/state.js. -/

/-- One segment of a cinema preset.  The source fields are named from / to /
durationMs; from is a reserved word in Lean so the altitude fields are named
fromKm / toKm here. -/
structure CinemaSegment where
  fromKm : ℚ
  toKm : ℚ
  durationMs : ℚ
deriving DecidableEq

/-- A cinema preset: a named ordered list of segments (the name is
irrelevant to the dynamics and omitted). -/
structure CinemaPreset where
  segments : List CinemaSegment
deriving DecidableEq

/-- Output record of computeCinemaState. -/
structure CinemaState where
  altitudeKm : ℚ
  direction : ℤ
  phase : Option Phase
  timeScale : ℚ
  travelElapsedMs : ℚ
  travelRemainingMs : ℚ
  done : Bool
deriving DecidableEq

/-- Total duration of a list of segments (the accumulated loop variable of
the source). -/
def sumDur (segs : List CinemaSegment) : ℚ := (segs.map CinemaSegment.durationMs).sum

/-- The state built inside the loop of computeCinemaState when the active
segment seg is found, with rest the segments after it and accumulated the sum
of the durations before it. -/
def cinemaActiveState (seg : CinemaSegment) (rest : List CinemaSegment)
    (elapsedMs accumulated : ℚ) : CinemaState :=
  let progress := (elapsedMs - accumulated) / seg.durationMs
  let direction : ℤ := if seg.fromKm < seg.toKm then 1 else -1
  let remainingMs := (seg.durationMs - (elapsedMs - accumulated)) + sumDur rest
  let realTravelMs := |seg.toKm - seg.fromKm| / DEFAULT_SPEED_KMH * 3600000
  { altitudeKm := seg.fromKm + (seg.toKm - seg.fromKm) * progress
    direction := direction
    phase := some (if seg.fromKm < seg.toKm then Phase.ascend else Phase.descend)
    timeScale := realTravelMs / seg.durationMs
    travelElapsedMs := elapsedMs
    travelRemainingMs := remainingMs
    done := false }

/-- The loop of computeCinemaState: the first segment whose cumulative
duration window contains elapsedMs, or none when every window has passed. -/
def findActiveSegment : List CinemaSegment → ℚ → ℚ → Option CinemaState
  | [], _, _ => none
  | seg :: rest, elapsedMs, accumulated =>
    if elapsedMs < accumulated + seg.durationMs then
      some (cinemaActiveState seg rest elapsedMs accumulated)
    else findActiveSegment rest elapsedMs (accumulated + seg.durationMs)

/-- The terminal state of computeCinemaState after all segments complete. -/
def cinemaDoneState (lastSeg : CinemaSegment) (total : ℚ) : CinemaState :=
  { altitudeKm := lastSeg.toKm
    direction := 0
    phase := none
    timeScale := 1
    travelElapsedMs := total
    travelRemainingMs := 0
    done := true }

/-- computeCinemaState from src/src/simulation/state.js.  The result is none
exactly when the segment list is empty and every window has passed, in which
case the source reads a field of undefined and throws. -/
def computeCinemaState (preset : CinemaPreset) (elapsedMs : ℚ) : Option CinemaState :=
  match findActiveSegment preset.segments elapsedMs 0 with
  | some c => some c
  | none =>
    (preset.segments.getLast?).map fun lastSeg =>
      cinemaDoneState lastSeg (sumDur preset.segments)

lemma sumDur_nil : sumDur [] = 0 := rfl

lemma sumDur_cons (s : CinemaSegment) (l : List CinemaSegment) :
    sumDur (s :: l) = s.durationMs + sumDur l := by
  simp [sumDur]

lemma sumDur_nonneg {l : List CinemaSegment} (h : ∀ s ∈ l, 0 ≤ s.durationMs) :
    0 ≤ sumDur l := by
  induction l with
  | nil => simp [sumDur_nil]
  | cons s t ih =>
    rw [sumDur_cons]
    have := h s (by simp)
    have ht : 0 ≤ sumDur t := ih (fun x hx => h x (by simp [hx]))
    linarith

lemma findActiveSegment_append (pre : List CinemaSegment) (seg : CinemaSegment)
    (post : List CinemaSegment) (elapsedMs : ℚ) :
    ∀ acc : ℚ, (∀ s ∈ pre, 0 ≤ s.durationMs) →
    acc + sumDur pre ≤ elapsedMs →
    elapsedMs < acc + sumDur pre + seg.durationMs →
    findActiveSegment (pre ++ seg :: post) elapsedMs acc
      = some (cinemaActiveState seg post elapsedMs (acc + sumDur pre)) := by
  induction pre with
  | nil =>
    intro acc _ hlo hhi
    rw [sumDur_nil] at hlo hhi ⊢
    rw [add_zero] at hlo hhi ⊢
    simp only [List.nil_append, findActiveSegment]
    rw [if_pos hhi]
  | cons s t ih =>
    intro acc hpre hlo hhi
    rw [sumDur_cons] at hlo hhi
    have ht : ∀ x ∈ t, 0 ≤ x.durationMs := fun x hx => hpre x (by simp [hx])
    have htd : 0 ≤ sumDur t := sumDur_nonneg ht
    simp only [List.cons_append, findActiveSegment]
    rw [if_neg (by linarith)]
    have harr : acc + sumDur (s :: t) = acc + s.durationMs + sumDur t := by
      rw [sumDur_cons]; ring
    rw [harr]
    exact ih (acc + s.durationMs) ht (by linarith) (by linarith)

lemma findActiveSegment_none (segs : List CinemaSegment) (elapsedMs : ℚ) :
    ∀ acc : ℚ, (∀ s ∈ segs, 0 ≤ s.durationMs) →
    acc + sumDur segs ≤ elapsedMs →
    findActiveSegment segs elapsedMs acc = none := by
  induction segs with
  | nil => intro acc _ _; rfl
  | cons s t ih =>
    intro acc hwf hle
    rw [sumDur_cons] at hle
    have ht : ∀ x ∈ t, 0 ≤ x.durationMs := fun x hx => hwf x (by simp [hx])
    have htd : 0 ≤ sumDur t := sumDur_nonneg ht
    simp only [findActiveSegment]
    rw [if_neg (by linarith)]
    exact ih (acc + s.durationMs) ht (by linarith)

/-- The example preset of the spec: two segments 0 to 100 km and 100 to 200 km,
1000 ms each. -/
def cinemaExamplePreset : CinemaPreset :=
  { segments := [{ fromKm := 0, toKm := 100, durationMs := 1000 },
                 { fromKm := 100, toKm := 200, durationMs := 1000 }] }

/-- C6: cinema playback is a pure function of elapsed time.  First conjunct:
when the cumulative window of a segment contains the elapsed time, that
segment is the active one, the altitude is the linear interpolation inside it,
done is false, and the direction is the sign of toKm - fromKm.  Second
conjunct: after the last segment completes the state is done at the final
altitude with direction 0.  Third conjunct: the concrete two-segment example
of the spec at elapsed 500, 1500 and 2500 ms. -/
theorem cinema_playback_correct :
    (∀ (preset : CinemaPreset) (pre : List CinemaSegment) (seg : CinemaSegment)
        (post : List CinemaSegment) (elapsedMs : ℚ),
      preset.segments = pre ++ seg :: post →
      (∀ s ∈ preset.segments, 0 < s.durationMs) →
      sumDur pre ≤ elapsedMs →
      elapsedMs < sumDur pre + seg.durationMs →
      computeCinemaState preset elapsedMs
          = some (cinemaActiveState seg post elapsedMs (sumDur pre)) ∧
        (cinemaActiveState seg post elapsedMs (sumDur pre)).altitudeKm
          = seg.fromKm + (seg.toKm - seg.fromKm) * ((elapsedMs - sumDur pre) / seg.durationMs) ∧
        (cinemaActiveState seg post elapsedMs (sumDur pre)).done = false ∧
        (seg.fromKm < seg.toKm →
          (cinemaActiveState seg post elapsedMs (sumDur pre)).direction = 1) ∧
        (seg.toKm < seg.fromKm →
          (cinemaActiveState seg post elapsedMs (sumDur pre)).direction = -1)) ∧
    (∀ (preset : CinemaPreset) (lastSeg : CinemaSegment) (elapsedMs : ℚ),
      (∀ s ∈ preset.segments, 0 < s.durationMs) →
      preset.segments.getLast? = some lastSeg →
      sumDur preset.segments ≤ elapsedMs →
      computeCinemaState preset elapsedMs
          = some (cinemaDoneState lastSeg (sumDur preset.segments)) ∧
        (cinemaDoneState lastSeg (sumDur preset.segments)).done = true ∧
        (cinemaDoneState lastSeg (sumDur preset.segments)).altitudeKm = lastSeg.toKm ∧
        (cinemaDoneState lastSeg (sumDur preset.segments)).direction = 0) ∧
    ((computeCinemaState cinemaExamplePreset 500).map CinemaState.altitudeKm = some 50 ∧
      (computeCinemaState cinemaExamplePreset 500).map CinemaState.direction = some 1 ∧
      (computeCinemaState cinemaExamplePreset 1500).map CinemaState.altitudeKm = some 150 ∧
      (computeCinemaState cinemaExamplePreset 2500).map CinemaState.done = some true ∧
      (computeCinemaState cinemaExamplePreset 2500).map CinemaState.altitudeKm = some 200 ∧
      (computeCinemaState cinemaExamplePreset 2500).map CinemaState.direction = some 0) := by
  refine ⟨?_, ?_, by
    norm_num [computeCinemaState, cinemaExamplePreset, findActiveSegment,
      cinemaActiveState, cinemaDoneState, sumDur, DEFAULT_SPEED_KMH]⟩
  · intro preset pre seg post elapsedMs hsegs hdur hlo hhi
    have hpre : ∀ s ∈ pre, 0 ≤ s.durationMs := by
      intro s hs
      exact (hdur s (by rw [hsegs]; exact List.mem_append_left _ hs)).le
    have hfind := findActiveSegment_append pre seg post elapsedMs 0 hpre
      (by rw [zero_add]; exact hlo) (by rw [zero_add]; exact hhi)
    rw [zero_add] at hfind
    refine ⟨?_, rfl, rfl, ?_, ?_⟩
    · unfold computeCinemaState
      rw [hsegs, hfind]
    · intro h
      simp only [cinemaActiveState]
      rw [if_pos h]
    · intro h
      simp only [cinemaActiveState]
      rw [if_neg (not_lt_of_gt h)]
  · intro preset lastSeg elapsedMs hdur hlast hle
    have hwf : ∀ s ∈ preset.segments, 0 ≤ s.durationMs := fun s hs => (hdur s hs).le
    have hfind := findActiveSegment_none preset.segments elapsedMs 0 hwf
      (by rw [zero_add]; exact hle)
    refine ⟨?_, rfl, rfl, rfl⟩
    unfold computeCinemaState
    rw [hfind, hlast]
    rfl

/-! The mutable simulation state and its update loop, final revision of
src/src/simulation/state.js. -/

/-- Operating mode of the simulation. -/
inductive Mode
  | realtime
  | sandbox
  | cinema
deriving DecidableEq

/-- The module-level simulation state.  Fields starting with an underscore
in the source (internal sandbox wait and cinema tracking) drop the
underscore here. -/
structure SimState where
  altitudeKm : ℚ
  speedKmh : ℚ
  direction : ℤ
  effectiveGravityG : ℚ
  startAltitudeKm : ℚ
  startTimeMs : ℚ
  timeScale : ℚ
  mode : Option Mode
  waitRemainingMs : ℚ
  phase : Option Phase
  travelElapsedMs : ℚ
  travelRemainingMs : Option ℚ
  sandboxWaiting : Bool
  waitAccumMs : ℚ
  prevUpdateMs : ℚ
  cinemaPreset : Option CinemaPreset
  cinemaStartMs : ℚ
deriving DecidableEq

/-- JavaScript division a / b used by the travel-time computation: none
models the non-finite value (Infinity) JavaScript produces when b = 0; the
source performs this division with no guard. -/
def jsDivInf (a b : ℚ) : Option ℚ := if b = 0 then none else some (a / b)

/-- computeAltitude from src/src/simulation/state.js: linear extrapolation
from the segment anchor, clamped to the physical bounds. -/
def computeAltitude (s : SimState) (now : ℚ) : ℚ :=
  let elapsedHours := (now - s.startTimeMs) / 3600000 * s.timeScale
  let alt := s.startAltitudeKm + s.direction * s.speedKmh * elapsedHours
  max 0 (min CABLE_LENGTH alt)

/-- The sandbox-waiting half of the sandbox branch of updateLocalState:
accumulate scaled wait time, auto-reversing when the wait is over. -/
def sandboxWaitStep (s : SimState) (now deltaMs : ℚ) : SimState :=
  let waitAccum := s.waitAccumMs + deltaMs * s.timeScale
  let remaining := WAIT_DURATION_MS - waitAccum
  if remaining ≤ 0 then
    let newDir : ℤ := if s.phase = some Phase.waitGround then 1 else -1
    let startAlt :=
      if s.phase = some Phase.waitGround then GROUND_STATION_ALTITUDE else CABLE_LENGTH
    { s with startAltitudeKm := startAlt
             startTimeMs := now
             direction := newDir
             sandboxWaiting := false
             waitAccumMs := 0
             waitRemainingMs := 0
             phase := some (if newDir = 1 then Phase.ascend else Phase.descend)
             altitudeKm := startAlt
             travelElapsedMs := 0
             travelRemainingMs := some TRAVEL_DURATION_MS }
  else
    { s with direction := 0
             waitRemainingMs := remaining
             waitAccumMs := waitAccum
             travelElapsedMs := 0
             travelRemainingMs := some 0 }

/-- The moving half of the sandbox branch of updateLocalState: extrapolate
the altitude, entering a wait when an endpoint is reached while moving
toward it. -/
def sandboxMoveStep (s : SimState) (now : ℚ) : SimState :=
  let alt := computeAltitude s now
  if alt ≤ GROUND_STATION_ALTITUDE ∧ s.direction = -1 then
    { s with altitudeKm := GROUND_STATION_ALTITUDE
             sandboxWaiting := true
             waitAccumMs := 0
             phase := some Phase.waitGround
             direction := 0
             waitRemainingMs := WAIT_DURATION_MS
             travelElapsedMs := 0
             travelRemainingMs := some 0 }
  else if CABLE_LENGTH ≤ alt ∧ s.direction = 1 then
    { s with altitudeKm := CABLE_LENGTH
             sandboxWaiting := true
             waitAccumMs := 0
             phase := some Phase.waitTop
             direction := 0
             waitRemainingMs := WAIT_DURATION_MS
             travelElapsedMs := 0
             travelRemainingMs := some 0 }
  else if s.direction ≠ 0 then
    { s with altitudeKm := alt
             phase := some (if s.direction = 1 then Phase.ascend else Phase.descend)
             travelElapsedMs := (now - s.startTimeMs) * s.timeScale
             travelRemainingMs :=
               (if s.direction = 1 then jsDivInf (CABLE_LENGTH - alt) s.speedKmh
                else jsDivInf alt s.speedKmh).map (fun q => q * 3600000)
             waitRemainingMs := 0 }
  else
    { s with altitudeKm := alt
             phase := none
             waitRemainingMs := 0
             travelElapsedMs := 0
             travelRemainingMs := some 0 }

/-- The sandbox / null-mode branch of updateLocalState. -/
def sandboxUpdate (s0 : SimState) (now : ℚ) : SimState :=
  let deltaMs := now - s0.prevUpdateMs
  let s := { s0 with prevUpdateMs := now }
  if s.sandboxWaiting then sandboxWaitStep s now deltaMs
  else sandboxMoveStep s now

/-- The final line of updateLocalState: recompute the derived
effectiveGravityG field from the new altitude (divided by 9.80). -/
def withGravity (s1 : SimState) : SimState :=
  { s1 with effectiveGravityG := getEffectiveGravityQ s1.altitudeKm / (98 / 10) }

/-- The realtime branch of updateLocalState: copy the UTC-synced fields. -/
def realtimeApply (s : SimState) (now : ℚ) : SimState :=
  let sync := getUTCSyncState now
  { s with altitudeKm := sync.altitudeKm
           direction := sync.direction
           waitRemainingMs := sync.waitRemainingMs
           phase := some sync.phase
           travelElapsedMs := sync.travelElapsedMs
           travelRemainingMs := some sync.travelRemainingMs
           speedKmh := DEFAULT_SPEED_KMH
           timeScale := 1 }

/-- The cinema branch of updateLocalState: copy the computed cinema fields. -/
def cinemaApply (s : SimState) (c : CinemaState) : SimState :=
  { s with altitudeKm := c.altitudeKm
           direction := c.direction
           phase := c.phase
           speedKmh := DEFAULT_SPEED_KMH
           timeScale := c.timeScale
           travelElapsedMs := c.travelElapsedMs
           travelRemainingMs := some c.travelRemainingMs
           waitRemainingMs := 0 }

/-- updateLocalState from src/src/simulation/state.js: the per-frame update.
The result is none only when the cinema branch reads past the end of an empty
segment list, which in the source is a thrown TypeError. -/
def updateLocalState (s : SimState) (now : ℚ) : Option SimState :=
  let result : Option SimState :=
    match s.mode, s.cinemaPreset with
    | some Mode.realtime, _ => some (realtimeApply s now)
    | some Mode.cinema, some preset =>
      (computeCinemaState preset (now - s.cinemaStartMs)).map (cinemaApply s)
    | _, _ => some (sandboxUpdate s now)
  result.map withGravity

/-- setLocalSegment from src/src/simulation/state.js: breaks out of realtime
or cinema mode into sandbox, re-anchors the segment and updates. -/
def setLocalSegment (s : SimState) (now startAltitudeKm speedKmh : ℚ)
    (direction : ℤ) : Option SimState :=
  let s1 :=
    if s.mode = some Mode.cinema ∨ s.mode = some Mode.realtime then
      { s with mode := some Mode.sandbox, cinemaPreset := none, timeScale := 1 }
    else s
  updateLocalState
    { s1 with startAltitudeKm := startAltitudeKm
              startTimeMs := now
              speedKmh := speedKmh
              direction := direction
              sandboxWaiting := false
              waitAccumMs := 0 } now

/-- adminSetAltitude (sandbox-only final revision): teleport. -/
def adminSetAltitude (s : SimState) (now altitudeKm : ℚ) : Option SimState :=
  setLocalSegment s now altitudeKm s.speedKmh s.direction

/-- adminSetSpeed (sandbox-only final revision). -/
def adminSetSpeed (s : SimState) (now speedKmh : ℚ) : Option SimState :=
  setLocalSegment s now s.altitudeKm speedKmh s.direction

/-- adminSetDirection (sandbox-only final revision). -/
def adminSetDirection (s : SimState) (now : ℚ) (direction : ℤ) : Option SimState :=
  setLocalSegment s now s.altitudeKm s.speedKmh direction

/-- adminSetTimeScale from src/src/simulation/state.js: snapshots the current
altitude as the new anchor so changing scale causes no position jump; it does
not rerun the update. -/
def adminSetTimeScale (s : SimState) (now scale : ℚ) : SimState :=
  let s1 :=
    if s.mode = some Mode.cinema ∨ s.mode = some Mode.realtime then
      { s with mode := some Mode.sandbox, cinemaPreset := none }
    else s
  { s1 with startAltitudeKm := s1.altitudeKm, startTimeMs := now, timeScale := scale }

/-- adminRestart from src/src/simulation/state.js. -/
def adminRestart (s : SimState) (now : ℚ) : Option SimState :=
  setLocalSegment s now GROUND_STATION_ALTITUDE DEFAULT_SPEED_KMH 1

/-- adminReturnToRealtime from src/src/simulation/state.js. -/
def adminReturnToRealtime (s : SimState) : SimState :=
  { s with mode := some Mode.realtime }

/-- setMode from src/src/simulation/state.js. -/
def setMode (s : SimState) (mode : Mode) : SimState :=
  { s with mode := some mode }

/-- setCinemaPreset from src/src/simulation/state.js. -/
def setCinemaPreset (s : SimState) (preset : CinemaPreset) (now : ℚ) : SimState :=
  { s with cinemaPreset := some preset, cinemaStartMs := now }

/-- The initial module-level state (the state literal at the top of
src/src/simulation/state.js), with t0 the Date.now() of module load. -/
def initialState (t0 : ℚ) : SimState :=
  { altitudeKm := 0
    speedKmh := DEFAULT_SPEED_KMH
    direction := 1
    effectiveGravityG := 1
    startAltitudeKm := 0
    startTimeMs := t0
    timeScale := 1
    mode := none
    waitRemainingMs := 0
    phase := none
    travelElapsedMs := 0
    travelRemainingMs := some 0
    sandboxWaiting := false
    waitAccumMs := 0
    prevUpdateMs := t0
    cinemaPreset := none
    cinemaStartMs := 0 }

/-- The two cinema presets of src/src/constants.js (CINEMA_MODES). -/
def CINEMA_MODES : List CinemaPreset :=
  [{ segments := [{ fromKm := 0, toKm := 100, durationMs := 2 * 60000 },
                  { fromKm := 100, toKm := 1000, durationMs := 2 * 60000 },
                  { fromKm := 1000, toKm := 30000, durationMs := 2 * 60000 },
                  { fromKm := 30000, toKm := 100000, durationMs := 1 * 60000 }] },
   { segments := [{ fromKm := 0, toKm := 100, durationMs := 15000 },
                  { fromKm := 100, toKm := 1000, durationMs := 15000 },
                  { fromKm := 1000, toKm := 10000, durationMs := 15000 },
                  { fromKm := 10000, toKm := 35780, durationMs := 15000 }] }]

/-- The documented altitude invariant of the data model. -/
def AltInv (s : SimState) : Prop :=
  0 ≤ s.altitudeKm ∧ s.altitudeKm ≤ CABLE_LENGTH

/-- The documented invariant of cinema presets: nonempty, positive durations,
altitudes within the cable range. -/
def PresetWF (p : CinemaPreset) : Prop :=
  p.segments ≠ [] ∧
  ∀ seg ∈ p.segments, 0 < seg.durationMs ∧
    0 ≤ seg.fromKm ∧ seg.fromKm ≤ CABLE_LENGTH ∧
    0 ≤ seg.toKm ∧ seg.toKm ≤ CABLE_LENGTH

/-- Well-formed simulation state: the altitude invariant plus the preset
invariant for any loaded preset. -/
def StateWF (s : SimState) : Prop :=
  AltInv s ∧ ∀ p, s.cinemaPreset = some p → PresetWF p

lemma CABLE_LENGTH_nonneg : (0 : ℚ) ≤ CABLE_LENGTH := by norm_num [CABLE_LENGTH]

lemma computeAltitude_bounds (s : SimState) (now : ℚ) :
    0 ≤ computeAltitude s now ∧ computeAltitude s now ≤ CABLE_LENGTH := by
  unfold computeAltitude
  constructor
  · exact le_max_left _ _
  · exact max_le CABLE_LENGTH_nonneg (min_le_left _ _)

lemma WAIT_DURATION_MS_eq : WAIT_DURATION_MS = 600000 := by norm_num [WAIT_DURATION_MS]

lemma TRAVEL_DURATION_MS_eq : TRAVEL_DURATION_MS = 1200000000 := by
  norm_num [TRAVEL_DURATION_MS, CABLE_LENGTH, DEFAULT_SPEED_KMH]

lemma CYCLE_DURATION_MS_eq : CYCLE_DURATION_MS = 2401200000 := by
  norm_num [CYCLE_DURATION_MS, TRAVEL_DURATION_MS_eq, WAIT_DURATION_MS_eq]

lemma syncFromCyclePos_alt_bounds (cp : ℚ) (_h0 : 0 ≤ cp) (h1 : cp < CYCLE_DURATION_MS) :
    0 ≤ (syncFromCyclePos cp).altitudeKm ∧ (syncFromCyclePos cp).altitudeKm ≤ CABLE_LENGTH := by
  rw [CYCLE_DURATION_MS_eq] at h1
  simp only [syncFromCyclePos, WAIT_DURATION_MS_eq, TRAVEL_DURATION_MS_eq,
    GROUND_STATION_ALTITUDE, CABLE_LENGTH]
  split_ifs with hc1 hc2 hc3
  · norm_num
  · push_neg at hc1
    have hp0 : 0 ≤ (cp - 600000) / 1200000000 := by
      apply div_nonneg (by linarith) (by norm_num)
    have hp1 : (cp - 600000) / 1200000000 < 1 := by
      rw [div_lt_one (by norm_num)]
      linarith
    constructor <;> nlinarith [hp0, hp1]
  · norm_num
  · push_neg at hc1 hc2 hc3
    have h3 : (600000 : ℚ) * 2 + 1200000000 = 1201200000 := by norm_num
    have hp0 : 0 ≤ (cp - (2 * 600000 + 1200000000)) / 1200000000 := by
      apply div_nonneg (by linarith) (by norm_num)
    have hp1 : (cp - (2 * 600000 + 1200000000)) / 1200000000 < 1 := by
      rw [div_lt_one (by norm_num)]
      linarith
    constructor <;> nlinarith [hp0, hp1]

lemma findActiveSegment_alt_bounds (segs : List CinemaSegment)
    (hwf : ∀ seg ∈ segs, 0 < seg.durationMs ∧
      0 ≤ seg.fromKm ∧ seg.fromKm ≤ CABLE_LENGTH ∧ 0 ≤ seg.toKm ∧ seg.toKm ≤ CABLE_LENGTH) :
    ∀ (acc e : ℚ) (c : CinemaState), acc ≤ e →
      findActiveSegment segs e acc = some c →
      0 ≤ c.altitudeKm ∧ c.altitudeKm ≤ CABLE_LENGTH := by
  induction segs with
  | nil => intro acc e c _ hfind; cases hfind
  | cons seg rest ih =>
    intro acc e c hacc hfind
    have hseg := hwf seg (by simp)
    obtain ⟨hdur, hf0, hf1, ht0, ht1⟩ := hseg
    simp only [findActiveSegment] at hfind
    by_cases hwin : e < acc + seg.durationMs
    · rw [if_pos hwin] at hfind
      have hc : c = cinemaActiveState seg rest e acc := (Option.some_inj.mp hfind).symm
      subst hc
      simp only [cinemaActiveState]
      have hp0 : 0 ≤ (e - acc) / seg.durationMs := div_nonneg (by linarith) hdur.le
      have hp1 : (e - acc) / seg.durationMs < 1 := by
        rw [div_lt_one hdur]
        linarith
      rcases le_or_lt seg.fromKm seg.toKm with hle | hlt
      · constructor <;> nlinarith [hp0, hp1]
      · constructor <;> nlinarith [hp0, hp1]
    · rw [if_neg hwin] at hfind
      push_neg at hwin
      exact ih (fun x hx => hwf x (by simp [hx])) (acc + seg.durationMs) e c hwin hfind

lemma computeCinemaState_wf (p : CinemaPreset) (e : ℚ) (hp : PresetWF p) (he : 0 ≤ e) :
    ∃ c, computeCinemaState p e = some c ∧ 0 ≤ c.altitudeKm ∧ c.altitudeKm ≤ CABLE_LENGTH := by
  obtain ⟨hne, hwf⟩ := hp
  unfold computeCinemaState
  cases hfind : findActiveSegment p.segments e 0 with
  | some c =>
    refine ⟨c, rfl, ?_⟩
    exact findActiveSegment_alt_bounds p.segments
      (fun seg hs => ⟨(hwf seg hs).1, (hwf seg hs).2⟩) 0 e c he hfind
  | none =>
    have hlast := List.getLast?_eq_getLast_of_ne_nil hne
    rw [hlast]
    refine ⟨cinemaDoneState (p.segments.getLast hne) (sumDur p.segments), rfl, ?_⟩
    have hmem : p.segments.getLast hne ∈ p.segments := List.getLast_mem hne
    have := hwf _ hmem
    simp only [cinemaDoneState]
    exact ⟨this.2.2.2.1, this.2.2.2.2⟩

lemma sandboxWaitStep_cinemaPreset (s : SimState) (now deltaMs : ℚ) :
    (sandboxWaitStep s now deltaMs).cinemaPreset = s.cinemaPreset := by
  simp only [sandboxWaitStep]
  split_ifs <;> rfl

lemma sandboxMoveStep_cinemaPreset (s : SimState) (now : ℚ) :
    (sandboxMoveStep s now).cinemaPreset = s.cinemaPreset := by
  simp only [sandboxMoveStep]
  split_ifs <;> rfl

lemma sandboxUpdate_cinemaPreset (s : SimState) (now : ℚ) :
    (sandboxUpdate s now).cinemaPreset = s.cinemaPreset := by
  simp only [sandboxUpdate]
  split_ifs <;> simp [sandboxWaitStep_cinemaPreset, sandboxMoveStep_cinemaPreset]

lemma sandboxWaitStep_altitudeKm_cases (s : SimState) (now deltaMs : ℚ) :
    (sandboxWaitStep s now deltaMs).altitudeKm = s.altitudeKm ∨
    (sandboxWaitStep s now deltaMs).altitudeKm = GROUND_STATION_ALTITUDE ∨
    (sandboxWaitStep s now deltaMs).altitudeKm = CABLE_LENGTH := by
  simp only [sandboxWaitStep]
  split_ifs <;> simp

lemma sandboxMoveStep_altitudeKm_cases (s : SimState) (now : ℚ) :
    (sandboxMoveStep s now).altitudeKm = GROUND_STATION_ALTITUDE ∨
    (sandboxMoveStep s now).altitudeKm = CABLE_LENGTH ∨
    (sandboxMoveStep s now).altitudeKm = computeAltitude s now := by
  simp only [sandboxMoveStep]
  split_ifs <;> simp

lemma sandboxUpdate_altitudeKm_cases (s : SimState) (now : ℚ) :
    (s.sandboxWaiting = true ∧ (sandboxUpdate s now).altitudeKm = s.altitudeKm) ∨
    (sandboxUpdate s now).altitudeKm = GROUND_STATION_ALTITUDE ∨
    (sandboxUpdate s now).altitudeKm = CABLE_LENGTH ∨
    (sandboxUpdate s now).altitudeKm = computeAltitude { s with prevUpdateMs := now } now := by
  simp only [sandboxUpdate]
  split_ifs with hw
  · rcases sandboxWaitStep_altitudeKm_cases { s with prevUpdateMs := now } now
        (now - s.prevUpdateMs) with hc | hc | hc
    · exact Or.inl ⟨by simpa using hw, hc⟩
    · exact Or.inr (Or.inl hc)
    · exact Or.inr (Or.inr (Or.inl hc))
  · rcases sandboxMoveStep_altitudeKm_cases { s with prevUpdateMs := now } now with hc | hc | hc
    · exact Or.inr (Or.inl hc)
    · exact Or.inr (Or.inr (Or.inl hc))
    · exact Or.inr (Or.inr (Or.inr hc))

lemma sandboxUpdate_alt_bounds (s : SimState) (now : ℚ)
    (h : s.sandboxWaiting = false ∨ AltInv s) :
    AltInv (sandboxUpdate s now) := by
  have hca := computeAltitude_bounds { s with prevUpdateMs := now } now
  rcases sandboxUpdate_altitudeKm_cases s now with ⟨hw, hc⟩ | hc | hc | hc
  · rcases h with hf | hinv
    · rw [hf] at hw
      cases hw
    · unfold AltInv
      rw [hc]
      exact hinv
  · unfold AltInv
    rw [hc]
    norm_num [GROUND_STATION_ALTITUDE, CABLE_LENGTH]
  · unfold AltInv
    rw [hc]
    norm_num [CABLE_LENGTH]
  · unfold AltInv
    rw [hc]
    exact hca

lemma withGravity_cinemaPreset (s1 : SimState) :
    (withGravity s1).cinemaPreset = s1.cinemaPreset := rfl

lemma updateLocalState_eq_sandbox (s : SimState) (now : ℚ)
    (hm : s.mode ≠ some Mode.realtime)
    (hc : s.mode = some Mode.cinema → s.cinemaPreset = none) :
    updateLocalState s now = some (withGravity (sandboxUpdate s now)) := by
  rcases hmm : s.mode with _ | m
  · simp only [updateLocalState, hmm, Option.map_some']
  · cases m with
    | realtime => exact absurd hmm hm
    | sandbox => simp only [updateLocalState, hmm, Option.map_some']
    | cinema =>
      have hp := hc hmm
      simp only [updateLocalState, hmm, hp, Option.map_some']

lemma updateLocalState_eq_realtime (s : SimState) (now : ℚ)
    (hm : s.mode = some Mode.realtime) :
    updateLocalState s now = some (withGravity (realtimeApply s now)) := by
  simp only [updateLocalState, hm, Option.map_some']

lemma updateLocalState_eq_cinema (s : SimState) (now : ℚ) (preset : CinemaPreset)
    (hm : s.mode = some Mode.cinema) (hp : s.cinemaPreset = some preset) :
    updateLocalState s now
      = ((computeCinemaState preset (now - s.cinemaStartMs)).map (cinemaApply s)).map
          withGravity := by
  simp only [updateLocalState, hm, hp]

lemma updateLocalState_wf (s : SimState) (now : ℚ) (hs : StateWF s)
    (ht : s.cinemaStartMs ≤ now) :
    ∃ s1, updateLocalState s now = some s1 ∧ StateWF s1 ∧
      s1.cinemaPreset = s.cinemaPreset := by
  obtain ⟨hinv, hpre⟩ := hs
  rcases hm : s.mode with _ | m
  · rw [updateLocalState_eq_sandbox s now (by rw [hm]; intro h; cases h)
      (by rw [hm]; intro h; cases h)]
    refine ⟨_, rfl, ⟨?_, ?_⟩, ?_⟩
    · exact sandboxUpdate_alt_bounds s now (Or.inr hinv)
    · intro p hp
      rw [withGravity_cinemaPreset, sandboxUpdate_cinemaPreset] at hp
      exact hpre p hp
    · rw [withGravity_cinemaPreset, sandboxUpdate_cinemaPreset]
  · cases m with
    | realtime =>
      rw [updateLocalState_eq_realtime s now hm]
      refine ⟨_, rfl, ⟨?_, ?_⟩, rfl⟩
      · exact syncFromCyclePos_alt_bounds (cyclePosOf now) (cyclePosOf_nonneg now)
          (cyclePosOf_lt now)
      · intro p hp
        exact hpre p hp
    | sandbox =>
      rw [updateLocalState_eq_sandbox s now (by rw [hm]; intro h; cases h)
        (by rw [hm]; intro h; cases h)]
      refine ⟨_, rfl, ⟨?_, ?_⟩, ?_⟩
      · exact sandboxUpdate_alt_bounds s now (Or.inr hinv)
      · intro p hp
        rw [withGravity_cinemaPreset, sandboxUpdate_cinemaPreset] at hp
        exact hpre p hp
      · rw [withGravity_cinemaPreset, sandboxUpdate_cinemaPreset]
    | cinema =>
      rcases hp : s.cinemaPreset with _ | preset
      · rw [updateLocalState_eq_sandbox s now (by rw [hm]; intro h; cases h)
          (fun _ => hp)]
        refine ⟨_, rfl, ⟨?_, ?_⟩, ?_⟩
        · exact sandboxUpdate_alt_bounds s now (Or.inr hinv)
        · intro p hpp
          rw [withGravity_cinemaPreset, sandboxUpdate_cinemaPreset, hp] at hpp
          cases hpp
        · rw [withGravity_cinemaPreset, sandboxUpdate_cinemaPreset, hp]
      · obtain ⟨c, hc, hc0, hc1⟩ := computeCinemaState_wf preset (now - s.cinemaStartMs)
          (hpre preset hp) (by linarith)
        rw [updateLocalState_eq_cinema s now preset hm hp, hc]
        refine ⟨_, rfl, ⟨⟨hc0, hc1⟩, ?_⟩, hp⟩
        intro p hpp
        have hpp2 : s.cinemaPreset = some p := hpp
        rw [hp] at hpp2
        have hpeq : preset = p := Option.some_inj.mp hpp2
        rw [← hpeq]
        exact hpre preset hp

lemma setLocalSegment_wf (s : SimState) (now a v : ℚ) (d : ℤ)
    (hpre : ∀ p, s.cinemaPreset = some p → PresetWF p) :
    ∃ s1, setLocalSegment s now a v d = some s1 ∧ StateWF s1 := by
  simp only [setLocalSegment]
  split_ifs with hm
  · rw [updateLocalState_eq_sandbox _ now (by simp) (by simp)]
    refine ⟨_, rfl, ⟨?_, ?_⟩⟩
    · exact sandboxUpdate_alt_bounds _ now (Or.inl rfl)
    · intro p hp
      rw [withGravity_cinemaPreset, sandboxUpdate_cinemaPreset] at hp
      simp at hp
  · push_neg at hm
    rw [updateLocalState_eq_sandbox
      { s with startAltitudeKm := a, startTimeMs := now, speedKmh := v, direction := d,
               sandboxWaiting := false, waitAccumMs := 0 } now
      (by exact hm.2) (by intro h; exact absurd h hm.1)]
    refine ⟨_, rfl, ⟨?_, ?_⟩⟩
    · exact sandboxUpdate_alt_bounds _ now (Or.inl rfl)
    · intro p hp
      rw [withGravity_cinemaPreset, sandboxUpdate_cinemaPreset] at hp
      exact hpre p hp

lemma withGravity_altitudeKm (s1 : SimState) :
    (withGravity s1).altitudeKm = s1.altitudeKm := rfl

lemma CINEMA_MODES_wf : ∀ p ∈ CINEMA_MODES, PresetWF p := by
  intro p hp
  simp only [CINEMA_MODES, List.mem_cons, List.not_mem_nil, or_false] at hp
  rcases hp with rfl | rfl <;>
    refine ⟨by simp, ?_⟩ <;>
    · intro seg hseg
      simp only [List.mem_cons, List.not_mem_nil, or_false] at hseg
      rcases hseg with rfl | rfl | rfl | rfl <;> norm_num [CABLE_LENGTH]

lemma adminSetTimeScale_wf (s : SimState) (now scale : ℚ) (hs : StateWF s) :
    StateWF (adminSetTimeScale s now scale) := by
  simp only [adminSetTimeScale]
  split_ifs with hm
  · refine ⟨hs.1, ?_⟩
    intro p hp
    simp at hp
  · exact ⟨hs.1, fun p hp => hs.2 p hp⟩

/-- C8: the altitude invariant 0 ≤ altitudeKm ≤ CABLE_LENGTH holds for the
initial state and is preserved by the per-frame update in every mode and by
every admin mutation with arbitrary arguments; the per-frame update always
yields a state (it is total) given the documented data-model invariants: a
loaded cinema preset is well formed and the clock does not run backwards past
the cinema start. -/
theorem altitude_invariant_all_modes :
    (∀ t0 : ℚ, StateWF (initialState t0)) ∧
    (∀ (s : SimState) (now : ℚ), StateWF s → s.cinemaStartMs ≤ now →
      ∃ s1, updateLocalState s now = some s1 ∧ StateWF s1) ∧
    (∀ (s : SimState) (now x : ℚ), StateWF s →
      ∃ s1, adminSetAltitude s now x = some s1 ∧ StateWF s1) ∧
    (∀ (s : SimState) (now v : ℚ), StateWF s →
      ∃ s1, adminSetSpeed s now v = some s1 ∧ StateWF s1) ∧
    (∀ (s : SimState) (now : ℚ) (d : ℤ), StateWF s →
      ∃ s1, adminSetDirection s now d = some s1 ∧ StateWF s1) ∧
    (∀ (s : SimState) (now : ℚ), StateWF s →
      ∃ s1, adminRestart s now = some s1 ∧ StateWF s1) ∧
    (∀ (s : SimState) (now scale : ℚ), StateWF s →
      StateWF (adminSetTimeScale s now scale)) ∧
    (∀ (s : SimState) (m : Mode), StateWF s → StateWF (setMode s m)) ∧
    (∀ s : SimState, StateWF s → StateWF (adminReturnToRealtime s)) ∧
    (∀ (s : SimState) (p : CinemaPreset) (now : ℚ), StateWF s → p ∈ CINEMA_MODES →
      StateWF (setCinemaPreset s p now)) := by
  refine ⟨?_, ?_, ?_, ?_, ?_, ?_, ?_, ?_, ?_, ?_⟩
  · intro t0
    refine ⟨⟨by norm_num [initialState], by norm_num [initialState, CABLE_LENGTH]⟩, ?_⟩
    intro p hp
    simp [initialState] at hp
  · intro s now hs ht
    obtain ⟨s1, h1, h2, _⟩ := updateLocalState_wf s now hs ht
    exact ⟨s1, h1, h2⟩
  · intro s now x hs
    exact setLocalSegment_wf s now x s.speedKmh s.direction hs.2
  · intro s now v hs
    exact setLocalSegment_wf s now s.altitudeKm v s.direction hs.2
  · intro s now d hs
    exact setLocalSegment_wf s now s.altitudeKm s.speedKmh d hs.2
  · intro s now hs
    exact setLocalSegment_wf s now GROUND_STATION_ALTITUDE DEFAULT_SPEED_KMH 1 hs.2
  · intro s now scale hs
    exact adminSetTimeScale_wf s now scale hs
  · intro s m hs
    exact ⟨hs.1, fun p hp => hs.2 p hp⟩
  · intro s hs
    exact ⟨hs.1, fun p hp => hs.2 p hp⟩
  · intro s p now hs hpm
    refine ⟨hs.1, ?_⟩
    intro q hq
    have : some p = some q := hq
    rw [← Option.some_inj.mp this]
    exact CINEMA_MODES_wf p hpm

lemma computeAltitude_at_anchor (s : SimState) (now : ℚ) (hst : s.startTimeMs = now)
    (h0 : 0 ≤ s.startAltitudeKm) (h1 : s.startAltitudeKm ≤ CABLE_LENGTH) :
    computeAltitude s now = s.startAltitudeKm := by
  simp only [computeAltitude, hst]
  have e0 : (now - now) / 3600000 * s.timeScale = 0 := by simp
  rw [e0]
  simp only [mul_zero, add_zero]
  rw [min_eq_right h1, max_eq_right h0]

lemma sandboxUpdate_anchored (s : SimState) (now : ℚ)
    (hw : s.sandboxWaiting = false)
    (hst : s.startTimeMs = now)
    (h0 : 0 ≤ s.startAltitudeKm) (h1 : s.startAltitudeKm ≤ CABLE_LENGTH)
    (hnot : ¬(s.startAltitudeKm < GROUND_STATION_ALTITUDE ∧ s.direction = -1)) :
    (sandboxUpdate s now).altitudeKm = s.startAltitudeKm := by
  have hca : computeAltitude { s with prevUpdateMs := now } now = s.startAltitudeKm :=
    computeAltitude_at_anchor { s with prevUpdateMs := now } now hst h0 h1
  simp only [sandboxUpdate]
  rw [if_neg (by simp [hw])]
  simp only [sandboxMoveStep, hca]
  split_ifs with hc1 hc2 hc3 hc4
  · have heq : s.startAltitudeKm = GROUND_STATION_ALTITUDE := by
      rcases lt_or_eq_of_le hc1.1 with hlt | heq
      · exact absurd ⟨hlt, hc1.2⟩ hnot
      · exact heq
    exact heq.symm
  · exact (le_antisymm h1 hc2.1).symm
  · rfl
  · rfl
  · rfl

lemma setLocalSegment_altitudeKm (s : SimState) (now v : ℚ) (d : ℤ) (a : ℚ)
    (ha0 : 0 ≤ a) (ha1 : a ≤ CABLE_LENGTH)
    (hnot : ¬(a < GROUND_STATION_ALTITUDE ∧ d = -1)) :
    (setLocalSegment s now a v d).map SimState.altitudeKm = some a := by
  simp only [setLocalSegment]
  split_ifs with hm
  · rw [updateLocalState_eq_sandbox _ now (by simp) (by simp)]
    simp only [Option.map_some']
    rw [withGravity_altitudeKm, Option.some_inj]
    refine sandboxUpdate_anchored _ now ?_ ?_ ?_ ?_ ?_
    · rfl
    · rfl
    · exact ha0
    · exact ha1
    · exact hnot
  · push_neg at hm
    rw [updateLocalState_eq_sandbox
      { s with startAltitudeKm := a, startTimeMs := now, speedKmh := v, direction := d,
               sandboxWaiting := false, waitAccumMs := 0 } now
      (by exact hm.2) (by intro h; exact absurd h hm.1)]
    simp only [Option.map_some']
    rw [withGravity_altitudeKm, Option.some_inj]
    refine sandboxUpdate_anchored _ now ?_ ?_ ?_ ?_ ?_
    · rfl
    · rfl
    · exact ha0
    · exact ha1
    · exact hnot

lemma adminSetTimeScale_altitudeKm (s : SimState) (now scale : ℚ) :
    (adminSetTimeScale s now scale).altitudeKm = s.altitudeKm := by
  simp only [adminSetTimeScale]
  split_ifs <;> rfl

/-- A concrete well-formed sandbox state in the middle of the cable, used to
witness the continuity property at an ordinary point. -/
def exampleSandboxState : SimState :=
  { initialState 0 with mode := some Mode.sandbox, altitudeKm := 5000 }

/-- C2 (amended): admin mutations preserve the instantaneous altitude, except
that adminSetSpeed and adminSetDirection snap the altitude up to
GROUND_STATION_ALTITUDE (a jump of up to 0.01 km) when the current altitude
lies strictly below the ground station and the (new) direction is -1, because
the re-run update then takes the ground-arrival branch.  adminSetTimeScale
always preserves the altitude exactly. -/
theorem admin_setters_preserve_altitude :
    (∀ (s : SimState) (now scale : ℚ),
      (adminSetTimeScale s now scale).altitudeKm = s.altitudeKm) ∧
    (∀ (s : SimState) (now v : ℚ), 0 ≤ s.altitudeKm → s.altitudeKm ≤ CABLE_LENGTH →
      ¬(s.altitudeKm < GROUND_STATION_ALTITUDE ∧ s.direction = -1) →
      (adminSetSpeed s now v).map SimState.altitudeKm = some s.altitudeKm) ∧
    (∀ (s : SimState) (now : ℚ) (d : ℤ), 0 ≤ s.altitudeKm → s.altitudeKm ≤ CABLE_LENGTH →
      ¬(s.altitudeKm < GROUND_STATION_ALTITUDE ∧ d = -1) →
      (adminSetDirection s now d).map SimState.altitudeKm = some s.altitudeKm) ∧
    ((adminSetSpeed exampleSandboxState 1000 50).map SimState.altitudeKm = some 5000 ∧
      (adminSetDirection exampleSandboxState 1000 (-1)).map SimState.altitudeKm = some 5000 ∧
      (adminSetTimeScale exampleSandboxState 1000 100).altitudeKm = 5000) := by
  refine ⟨?_, ?_, ?_, ?_, ?_, ?_⟩
  · exact adminSetTimeScale_altitudeKm
  · intro s now v h0 h1 hnot
    exact setLocalSegment_altitudeKm s now v s.direction s.altitudeKm h0 h1 hnot
  · intro s now d h0 h1 hnot
    exact setLocalSegment_altitudeKm s now s.speedKmh d s.altitudeKm h0 h1 hnot
  · have := setLocalSegment_altitudeKm exampleSandboxState 1000 50
      exampleSandboxState.direction 5000 (by norm_num)
      (by norm_num [CABLE_LENGTH])
      (by norm_num [GROUND_STATION_ALTITUDE])
    exact this
  · have := setLocalSegment_altitudeKm exampleSandboxState 1000
      exampleSandboxState.speedKmh (-1) 5000 (by norm_num)
      (by norm_num [CABLE_LENGTH])
      (by norm_num [GROUND_STATION_ALTITUDE])
    exact this
  · rw [adminSetTimeScale_altitudeKm]
    rfl

/-- C2 counterexample: with the state teleported to altitude 0 (below the
0.01 km ground-station altitude) and moving up, adminSetDirection to -1
changes the instantaneous altitude from 0 to 0.01 km (a 10 m jump), because
the re-run update takes the ground-arrival branch.  The pair is (altitude
immediately before the call, altitude immediately after). -/
theorem adminSetDirection_altitude_jump_cx :
    (adminSetAltitude (setMode (initialState 0) Mode.sandbox) 0 0).bind
        (fun s2 => (adminSetDirection s2 100 (-1)).map
          (fun s3 => (s2.altitudeKm, s3.altitudeKm)))
      = some (0, 1 / 100) := by
  norm_num [setMode, initialState, adminSetAltitude, adminSetDirection, setLocalSegment,
    updateLocalState, sandboxUpdate, sandboxMoveStep, sandboxWaitStep, computeAltitude,
    withGravity, jsDivInf, getEffectiveGravityQ, Option.map_some', Option.bind,
    CABLE_LENGTH, GROUND_STATION_ALTITUDE, DEFAULT_SPEED_KMH, WAIT_DURATION_MS,
    TRAVEL_DURATION_MS, EARTH_RADIUS, SURFACE_GRAVITY, EARTH_ROTATION_RATE]

/-! The remote admin API handlers, src/api/admin. -/

/-- The state record kept in the key-value store by the API handlers. -/
structure ServerState where
  startAltitudeKm : ℚ
  startTimeMs : ℚ
  speedKmh : ℚ
  direction : ℤ
deriving DecidableEq

/-- The 4xx error responses of the admin handlers. -/
inductive AdminError
  | invalidDirection
  | invalidAltitude
deriving DecidableEq

/-- computeAltitude of src/api/admin/set-direction.js (no time scale). -/
def serverComputeAltitude (st : ServerState) (now : ℚ) : ℚ :=
  let elapsed := (now - st.startTimeMs) / 3600000
  let alt := st.startAltitudeKm + st.direction * st.speedKmh * elapsed
  max 0 (min 100000 alt)

/-- The handler of src/api/admin/set-direction.js: validates the direction,
then re-anchors the stored segment at the current altitude.  The result pair
is (response, stored state after the call); a JavaScript falsy speed (0) is
replaced by 190. -/
def handleSetDirection (store : Option ServerState) (now : ℚ) (direction : ℤ) :
    Except AdminError Unit × Option ServerState :=
  if direction = 1 ∨ direction = 0 ∨ direction = -1 then
    let st := store.getD { startAltitudeKm := 0, startTimeMs := now, speedKmh := 190,
                           direction := 1 }
    let currentAlt := serverComputeAltitude st now
    (Except.ok (), some { startAltitudeKm := currentAlt
                          startTimeMs := now
                          speedKmh := if st.speedKmh = 0 then 190 else st.speedKmh
                          direction := direction })
  else (Except.error AdminError.invalidDirection, store)

/-- The handler of src/api/admin/set-altitude.js: rejects an altitude outside
[0, 100000], otherwise stores it as the new anchor. -/
def handleSetAltitude (store : Option ServerState) (now altitudeKm : ℚ) :
    Except AdminError Unit × Option ServerState :=
  if altitudeKm < 0 ∨ 100000 < altitudeKm then
    (Except.error AdminError.invalidAltitude, store)
  else
    match store with
    | none => (Except.ok (), some { startAltitudeKm := altitudeKm, startTimeMs := now,
                                    speedKmh := 190, direction := 1 })
    | some st => (Except.ok (), some { startAltitudeKm := altitudeKm
                                       startTimeMs := now
                                       speedKmh := if st.speedKmh = 0 then 190 else st.speedKmh
                                       direction := st.direction })

/-- C3 (amended): the remote admin handlers reject invalid input with a 4xx
error and leave the stored state unchanged, and the local sandbox layer
clamps every teleport into the physical bounds; but (see the counterexample)
the local sandbox admin functions themselves perform no validation and do
mutate the state on invalid input. -/
theorem admin_input_validation :
    (∀ (store : Option ServerState) (now : ℚ) (d : ℤ),
      ¬(d = 1 ∨ d = 0 ∨ d = -1) →
      handleSetDirection store now d = (Except.error AdminError.invalidDirection, store)) ∧
    (∀ (store : Option ServerState) (now a : ℚ),
      a < 0 ∨ 100000 < a →
      handleSetAltitude store now a = (Except.error AdminError.invalidAltitude, store)) ∧
    (∀ (store : Option ServerState) (now : ℚ) (d : ℤ),
      d = 1 ∨ d = 0 ∨ d = -1 →
      (handleSetDirection store now d).1 = Except.ok ()) ∧
    (∀ (s : SimState) (now x : ℚ), StateWF s →
      ∃ s1, adminSetAltitude s now x = some s1 ∧
        0 ≤ s1.altitudeKm ∧ s1.altitudeKm ≤ CABLE_LENGTH) := by
  refine ⟨?_, ?_, ?_, ?_⟩
  · intro store now d hd
    simp only [handleSetDirection]
    rw [if_neg hd]
  · intro store now a ha
    simp only [handleSetAltitude]
    rw [if_pos ha]
  · intro store now d hd
    simp only [handleSetDirection]
    rw [if_pos hd]
  · intro s now x hs
    obtain ⟨s1, h1, h2⟩ := setLocalSegment_wf s now x s.speedKmh s.direction hs.2
    exact ⟨s1, h1, h2.1⟩

/-- C3 counterexample: the client-side adminSetAltitude accepts the invalid
altitude -5 without any failure result and mutates the state: the stored
segment anchor becomes -5 and the derived altitude is silently clamped to 0.
The pair is (startAltitudeKm, altitudeKm) after the call. -/
theorem adminSetAltitude_accepts_invalid_cx :
    (adminSetAltitude (setMode (initialState 0) Mode.sandbox) 5 (-5)).map
        (fun s2 => (s2.startAltitudeKm, s2.altitudeKm))
      = some (-5, 0) := by
  norm_num [setMode, initialState, adminSetAltitude, setLocalSegment,
    updateLocalState, sandboxUpdate, sandboxMoveStep, sandboxWaitStep, computeAltitude,
    withGravity, jsDivInf, getEffectiveGravityQ, Option.map_some',
    CABLE_LENGTH, GROUND_STATION_ALTITUDE, DEFAULT_SPEED_KMH, WAIT_DURATION_MS,
    TRAVEL_DURATION_MS, EARTH_RADIUS, SURFACE_GRAVITY, EARTH_ROTATION_RATE]

lemma sandboxWaitStep_travelRemaining_ne_none (s : SimState) (now deltaMs : ℚ) :
    (sandboxWaitStep s now deltaMs).travelRemainingMs ≠ none := by
  simp only [sandboxWaitStep]
  split_ifs <;> simp

lemma sandboxMoveStep_travelRemaining_ne_none (s : SimState) (now : ℚ)
    (hv : s.speedKmh ≠ 0) :
    (sandboxMoveStep s now).travelRemainingMs ≠ none := by
  simp only [sandboxMoveStep]
  split_ifs <;> simp [jsDivInf, hv]

lemma sandboxMoveStep_travelRemaining_none_iff_speed_zero (s : SimState) (now : ℚ)
    (h : (sandboxMoveStep s now).travelRemainingMs = none) : s.speedKmh = 0 := by
  by_cases hv : s.speedKmh = 0
  · exact hv
  · exact absurd h (sandboxMoveStep_travelRemaining_ne_none s now hv)

lemma sandboxUpdate_travelRemaining (s : SimState) (now : ℚ) (hv : s.speedKmh ≠ 0) :
    (sandboxUpdate s now).travelRemainingMs ≠ none := by
  simp only [sandboxUpdate]
  split_ifs
  · exact sandboxWaitStep_travelRemaining_ne_none _ now _
  · exact sandboxMoveStep_travelRemaining_ne_none _ now hv

lemma withGravity_travelRemainingMs (s1 : SimState) :
    (withGravity s1).travelRemainingMs = s1.travelRemainingMs := rfl

/-- C9 (amended): the travel-time-remaining division is not guarded; instead,
the nonfinite value it produces when speedKmh = 0 (Infinity in JavaScript,
the none of the embedding) flows into travelRemainingMs without failing the
update.  Whenever speedKmh is nonzero the per-frame update yields a finite
travelRemainingMs, and a nonfinite travelRemainingMs can only arise from
speedKmh = 0. -/
theorem travel_remaining_division :
    (∀ (s : SimState) (now : ℚ), StateWF s → s.cinemaStartMs ≤ now → s.speedKmh ≠ 0 →
      ∃ s1, updateLocalState s now = some s1 ∧ s1.travelRemainingMs ≠ none) ∧
    (∀ (s : SimState) (now : ℚ) (s1 : SimState), s.mode = some Mode.sandbox →
      updateLocalState s now = some s1 → s1.travelRemainingMs = none →
      s.speedKmh = 0) := by
  constructor
  · intro s now hs ht hv
    obtain ⟨s1, h1, _, _⟩ := updateLocalState_wf s now hs ht
    refine ⟨s1, h1, ?_⟩
    rcases hm : s.mode with _ | m
    · rw [updateLocalState_eq_sandbox s now (by rw [hm]; intro h; cases h)
        (by rw [hm]; intro h; cases h)] at h1
      have := Option.some_inj.mp h1
      rw [← this, withGravity_travelRemainingMs]
      exact sandboxUpdate_travelRemaining s now hv
    · cases m with
      | realtime =>
        rw [updateLocalState_eq_realtime s now hm] at h1
        have := Option.some_inj.mp h1
        rw [← this]
        simp [withGravity_travelRemainingMs, realtimeApply]
      | sandbox =>
        rw [updateLocalState_eq_sandbox s now (by rw [hm]; intro h; cases h)
          (by rw [hm]; intro h; cases h)] at h1
        have := Option.some_inj.mp h1
        rw [← this, withGravity_travelRemainingMs]
        exact sandboxUpdate_travelRemaining s now hv
      | cinema =>
        rcases hp : s.cinemaPreset with _ | preset
        · rw [updateLocalState_eq_sandbox s now (by rw [hm]; intro h; cases h)
            (fun _ => hp)] at h1
          have := Option.some_inj.mp h1
          rw [← this, withGravity_travelRemainingMs]
          exact sandboxUpdate_travelRemaining s now hv
        · rw [updateLocalState_eq_cinema s now preset hm hp] at h1
          rcases hc : computeCinemaState preset (now - s.cinemaStartMs) with _ | c
          · rw [hc] at h1
            cases h1
          · rw [hc] at h1
            simp only [Option.map_some'] at h1
            have := Option.some_inj.mp h1
            rw [← this]
            simp [withGravity_travelRemainingMs, cinemaApply]
  · intro s now s1 hm h1 hnone
    rw [updateLocalState_eq_sandbox s now (by rw [hm]; intro h; cases h)
      (by rw [hm]; intro h; cases h)] at h1
    have := Option.some_inj.mp h1
    rw [← this, withGravity_travelRemainingMs] at hnone
    simp only [sandboxUpdate] at hnone
    by_cases hw : ({ s with prevUpdateMs := now } : SimState).sandboxWaiting = true
    · rw [if_pos hw] at hnone
      exact absurd hnone (sandboxWaitStep_travelRemaining_ne_none _ now _)
    · rw [if_neg hw] at hnone
      exact sandboxMoveStep_travelRemaining_none_iff_speed_zero
        { s with prevUpdateMs := now } now hnone

/-- C9 counterexample: setting the speed to 0 while moving up from the ground
is reachable by a single admin call from the initial sandbox state, and the
very update it triggers divides by the zero speed: travelRemainingMs becomes
the nonfinite marker (Infinity in JavaScript), so the division is not
guarded. -/
theorem travel_division_by_zero_cx :
    (adminSetSpeed (setMode (initialState 0) Mode.sandbox) 5 0).map
        SimState.travelRemainingMs
      = some none := by
  norm_num [setMode, initialState, adminSetSpeed, setLocalSegment,
    updateLocalState, sandboxUpdate, sandboxMoveStep, sandboxWaitStep, computeAltitude,
    withGravity, jsDivInf, getEffectiveGravityQ, Option.map_some',
    CABLE_LENGTH, GROUND_STATION_ALTITUDE, DEFAULT_SPEED_KMH, WAIT_DURATION_MS,
    TRAVEL_DURATION_MS, EARTH_RADIUS, SURFACE_GRAVITY, EARTH_ROTATION_RATE]

/-! Milestone logic: checkMilestones from src/src/main.js.  Milestones are
identified by their altitude threshold (the display labels are irrelevant to
the firing semantics); the triggered JavaScript Set is a list of already
triggered thresholds. -/

/-- The per-milestone tolerance: Math.max(m.altitude * 0.01, 1). -/
def milestoneThreshold (t : ℚ) : ℚ := max (t * (1 / 100)) 1

/-- checkMilestones from src/src/main.js: one pass over the milestone list at
one altitude sample.  Result: (triggered set after the pass, thresholds fired
in this pass, in list order). -/
def checkMilestones : List ℚ → List ℚ → ℚ → List ℚ × List ℚ
  | [], triggered, _ => (triggered, [])
  | m :: rest, triggered, alt =>
    if m ∈ triggered then checkMilestones rest triggered alt
    else if |alt - m| < milestoneThreshold m then
      let r := checkMilestones rest (m :: triggered) alt
      (r.1, m :: r.2)
    else checkMilestones rest triggered alt

/-- Feeding a sequence of altitude samples through checkMilestones, threading
the triggered set; result: the list fired at each sample. -/
def runMilestones (ms : List ℚ) : List ℚ → List ℚ → List (List ℚ)
  | _, [] => []
  | triggered, alt :: rest =>
    let r := checkMilestones ms triggered alt
    r.2 :: runMilestones ms r.1 rest

lemma checkMilestones_fired_filter (ms : List ℚ) :
    ∀ (triggered : List ℚ) (alt : ℚ), ms.Nodup →
    (checkMilestones ms triggered alt).2
      = ms.filter (fun m => m ∉ triggered ∧ |alt - m| < milestoneThreshold m) := by
  induction ms with
  | nil => intro triggered alt _; rfl
  | cons m rest ih =>
    intro triggered alt hnd
    have hndr : rest.Nodup := hnd.of_cons
    have hmr : m ∉ rest := (List.nodup_cons.mp hnd).1
    simp only [checkMilestones]
    by_cases ht : m ∈ triggered
    · rw [if_pos ht, ih triggered alt hndr]
      rw [List.filter_cons]
      have : (decide (m ∉ triggered ∧ |alt - m| < milestoneThreshold m)) = false := by
        simp [ht]
      rw [this]
      simp
    · rw [if_neg ht]
      by_cases hf : |alt - m| < milestoneThreshold m
      · rw [if_pos hf]
        simp only
        rw [ih (m :: triggered) alt hndr]
        rw [List.filter_cons]
        have hm : (decide (m ∉ triggered ∧ |alt - m| < milestoneThreshold m)) = true := by
          simp [ht, hf]
        rw [hm]
        have : rest.filter (fun x => x ∉ m :: triggered ∧ |alt - x| < milestoneThreshold x)
            = rest.filter (fun x => x ∉ triggered ∧ |alt - x| < milestoneThreshold x) := by
          apply List.filter_congr
          intro x hx
          have hxm : x ≠ m := fun he => hmr (he ▸ hx)
          simp [List.mem_cons, hxm]
        rw [this]
        simp
      · rw [if_neg hf, ih triggered alt hndr]
        rw [List.filter_cons]
        have : (decide (m ∉ triggered ∧ |alt - m| < milestoneThreshold m)) = false := by
          simp [hf]
        rw [this]
        simp

lemma checkMilestones_mem_triggered (ms : List ℚ) :
    ∀ (triggered : List ℚ) (alt : ℚ) (x : ℚ),
    (x ∈ (checkMilestones ms triggered alt).1
      ↔ x ∈ triggered ∨ x ∈ (checkMilestones ms triggered alt).2) := by
  induction ms with
  | nil => intro triggered alt x; simp [checkMilestones]
  | cons m rest ih =>
    intro triggered alt x
    simp only [checkMilestones]
    by_cases ht : m ∈ triggered
    · rw [if_pos ht]
      exact ih triggered alt x
    · rw [if_neg ht]
      by_cases hf : |alt - m| < milestoneThreshold m
      · rw [if_pos hf]
        simp only [List.mem_cons]
        rw [ih (m :: triggered) alt x]
        simp only [List.mem_cons]
        tauto
      · rw [if_neg hf]
        exact ih triggered alt x

lemma checkMilestones_no_refire (ms : List ℚ) :
    ∀ (triggered : List ℚ) (alt : ℚ) (x : ℚ), x ∈ triggered →
    x ∉ (checkMilestones ms triggered alt).2 := by
  induction ms with
  | nil => intro triggered alt x _ h; simp [checkMilestones] at h
  | cons m rest ih =>
    intro triggered alt x hx
    simp only [checkMilestones]
    by_cases ht : m ∈ triggered
    · rw [if_pos ht]
      exact ih triggered alt x hx
    · rw [if_neg ht]
      by_cases hf : |alt - m| < milestoneThreshold m
      · rw [if_pos hf]
        simp only [List.mem_cons, not_or]
        refine ⟨fun he => ht (he ▸ hx), ?_⟩
        exact ih (m :: triggered) alt x (List.mem_cons_of_mem m hx)
      · rw [if_neg hf]
        exact ih triggered alt x hx

lemma runMilestones_count (ms : List ℚ) (hnd : ms.Nodup) :
    ∀ (samples triggered : List ℚ) (x : ℚ),
      (x ∈ triggered → ((runMilestones ms triggered samples).flatten.count x = 0)) ∧
      (runMilestones ms triggered samples).flatten.count x ≤ 1 := by
  intro samples
  induction samples with
  | nil => intro triggered x; simp [runMilestones]
  | cons alt rest ih =>
    intro triggered x
    simp only [runMilestones, List.flatten_cons, List.count_append]
    have hfil := checkMilestones_fired_filter ms triggered alt hnd
    have hfnd : (checkMilestones ms triggered alt).2.Nodup := by
      rw [hfil]
      exact hnd.filter _
    constructor
    · intro hx
      have h1 : (checkMilestones ms triggered alt).2.count x = 0 :=
        List.count_eq_zero.mpr (checkMilestones_no_refire ms triggered alt x hx)
      have h2 := (ih (checkMilestones ms triggered alt).1 x).1
        ((checkMilestones_mem_triggered ms triggered alt x).mpr (Or.inl hx))
      omega
    · by_cases hm : x ∈ (checkMilestones ms triggered alt).2
      · have h1 : (checkMilestones ms triggered alt).2.count x ≤ 1 :=
          List.nodup_iff_count_le_one.mp hfnd x
        have h2 := (ih (checkMilestones ms triggered alt).1 x).1
          ((checkMilestones_mem_triggered ms triggered alt x).mpr (Or.inr hm))
        omega
      · have h1 : (checkMilestones ms triggered alt).2.count x = 0 :=
          List.count_eq_zero.mpr hm
        have h2 := (ih (checkMilestones ms triggered alt).1 x).2
        omega

/-- C4 (amended): a milestone fires exactly when it has not yet been
triggered and the sample is STRICTLY within max(threshold * 1 percent, 1 km)
of it (the source uses a strict less-than, so a sample at distance exactly
equal to the tolerance does not fire); once triggered, a threshold never
fires again for the session.  Because of the strict comparison, the spec
example is wrong: with thresholds [10, 100] and samples [5, 9, 11, 50, 99,
101] the near samples are all at distance exactly 1, so no notification
fires at all (see the counterexample); samples strictly inside the band,
such as 10.5 and 99.5, do fire exactly once each. -/
theorem milestone_firing :
    (∀ (ms triggered : List ℚ) (alt : ℚ), ms.Nodup →
      (checkMilestones ms triggered alt).2
        = ms.filter (fun m => m ∉ triggered ∧ |alt - m| < milestoneThreshold m)) ∧
    (∀ (ms triggered : List ℚ) (alt x : ℚ), x ∈ triggered →
      x ∉ (checkMilestones ms triggered alt).2) ∧
    (∀ (ms : List ℚ), ms.Nodup → ∀ (samples triggered : List ℚ) (x : ℚ),
      (runMilestones ms triggered samples).flatten.count x ≤ 1) ∧
    (checkMilestones [10, 100] [] 11 = ([], []) ∧
      runMilestones [10, 100] [] [10.5, 99.5] = [[10], [100]]) := by
  refine ⟨?_, ?_, ?_, ?_, ?_⟩
  · intro ms triggered alt hnd
    exact checkMilestones_fired_filter ms triggered alt hnd
  · intro ms triggered alt x hx
    exact checkMilestones_no_refire ms triggered alt x hx
  · intro ms hnd samples triggered x
    exact (runMilestones_count ms hnd samples triggered x).2
  · norm_num [checkMilestones, milestoneThreshold, abs_of_nonneg, abs_of_nonpos]
  · norm_num [runMilestones, checkMilestones, milestoneThreshold,
      abs_of_nonneg, abs_of_nonpos]

/-- C4 counterexample: with thresholds [10, 100] and the altitude sample
sequence [5, 9, 11, 50, 99, 101] of the spec, no notification fires at any
sample (every close approach is at distance exactly 1, which the strict
comparison of the source rejects), contradicting the claimed two firings at
the 3rd and 6th samples. -/
theorem milestone_example_no_fires_cx :
    runMilestones [10, 100] [] [5, 9, 11, 50, 99, 101]
      = [[], [], [], [], [], []] := by
  norm_num [runMilestones, checkMilestones, milestoneThreshold,
    abs_of_nonneg, abs_of_nonpos]

/-! First-person movement controller, the orientation / vertical-physics core
of FirstPersonController.update (src/src/controls/FirstPersonController.js).
Horizontal walking and the hex-face clamp do not interact with the claims
and are not part of this slice. -/

/-- Constant from src/src/constants.js: eye height, 0.0017 km. -/
noncomputable def EYE_HEIGHT : ℝ := 17 / 10000

/-- Constant from src/src/constants.js: head clearance, 0.0003 km. -/
noncomputable def HEAD_CLEARANCE : ℝ := 3 / 10000

/-- Constant from src/src/constants.js: mag-boots pull, 9.80 m/s2. -/
noncomputable def MAG_BOOTS_FORCE : ℝ := 98 / 10

/-- Constant from src/src/constants.js: seconds before the anti-stuck nudge. -/
noncomputable def SAFETY_NET_DELAY : ℝ := 15

/-- Constant from src/src/constants.js: anti-stuck nudge force, m/s2. -/
noncomputable def SAFETY_NET_FORCE : ℝ := 5 / 1000

/-- Vertical cabin bounds (floor and ceiling plane heights). -/
structure CtrlBounds where
  floorY : ℝ
  ceilY : ℝ

/-- The controller state touched by the orientation / vertical core. -/
structure CtrlState where
  flipAngle : ℝ
  y : ℝ
  verticalVelocity : ℝ
  onFloor : Bool
  onCeiling : Bool
  jumping : Bool
  magBootsHeld : Bool
  floatingTime : ℝ

/-- The flip-target selection of update: flip to pi when gravity is clearly
negative, upright at 0 when clearly positive, hold the current angle inside
the micro-g dead zone. -/
noncomputable def flipTarget (gEff current : ℝ) : ℝ :=
  if gEff < -(1 / 100000) then Real.pi
  else if gEff > 1 / 100000 then 0
  else current

/-- The flip-angle smoothing of update: exponential approach by the factor
min(1, deltaTime * 2), snapping to the target when within 0.001. -/
noncomputable def flipStep (flipAngle target dt : ℝ) : ℝ :=
  let f := flipAngle + (target - flipAngle) * min 1 (dt * 2)
  if |f - target| < 1 / 1000 then target else f

/-- The jump speed of update: min(3.0, sqrt(2 * gAbs * 2.0)) m/s when the
absolute gravity exceeds 0.1 m/s2, a fixed 0.63 m/s in the micro-g band. -/
noncomputable def jumpSpeed (gEff : ℝ) : ℝ :=
  let gAbs := |gEff|
  let maxHeightImpulse := if gAbs > 1 / 10 then Real.sqrt (2 * gAbs * 2) else 63 / 100
  min 3 maxHeightImpulse

/-- The jump block of update: while jumping is latched, set the vertical
velocity away from the contact surface (in km/s) and clear the contact and
jump flags; with no contact the velocity is untouched. -/
noncomputable def applyJump (st : CtrlState) (gEff : ℝ) : CtrlState :=
  if st.jumping = true then
    let jumpImpulse := jumpSpeed gEff / 1000
    { st with
      verticalVelocity :=
        if st.onFloor = true then jumpImpulse
        else if st.onCeiling = true then -jumpImpulse
        else st.verticalVelocity
      onFloor := false
      onCeiling := false
      jumping := false }
  else st

/-- The vertical collision block of update: body extents follow the
bodyInverted flag; the result is (clamped y, vertical velocity, onFloor,
onCeiling). -/
noncomputable def collideVertical (bounds : CtrlBounds) (bodyInverted : Bool)
    (newY vel : ℝ) : ℝ × ℝ × Bool × Bool :=
  if bodyInverted = false then
    if newY - EYE_HEIGHT ≤ bounds.floorY then
      (bounds.floorY + EYE_HEIGHT, 0, true, false)
    else if newY + HEAD_CLEARANCE ≥ bounds.ceilY then
      (bounds.ceilY - HEAD_CLEARANCE, 0, false, true)
    else (newY, vel, false, false)
  else
    if newY + EYE_HEIGHT ≥ bounds.ceilY then
      (bounds.ceilY - EYE_HEIGHT, 0, false, true)
    else if newY - HEAD_CLEARANCE ≤ bounds.floorY then
      (bounds.floorY + HEAD_CLEARANCE, 0, true, false)
    else (newY, vel, false, false)

/-- The anti-stuck safety net of update; oldY is the camera y before the
position write at the end of the frame.  Result: (vertical velocity,
floating time). -/
noncomputable def safetyNet (bounds : CtrlBounds) (oldY vel floatingTime dt : ℝ)
    (onF onC : Bool) : ℝ × ℝ :=
  if onF = false ∧ onC = false then
    let ft := if |vel| < 5 / 10 ^ 7 then floatingTime + dt else 0
    let v :=
      if ft > SAFETY_NET_DELAY then
        let midY := (bounds.floorY + bounds.ceilY) / 2
        let toward : ℝ := if oldY > midY then 1 else -1
        vel + toward * (SAFETY_NET_FORCE / 1000) * dt
      else vel
    (v, ft)
  else (vel, 0)

/-- The body of update after the flip smoothing, parameterized by the
bodyInverted flag that the collision and mag-boots blocks consult. -/
noncomputable def controllerStepWith (bodyInverted : Bool) (bounds : CtrlBounds)
    (st : CtrlState) (gEff dt flipAngle1 : ℝ) : CtrlState :=
  let st1 := applyJump { st with flipAngle := flipAngle1 } gEff
  let v1 := st1.verticalVelocity - gEff / 1000 * dt
  let v2 :=
    if st.magBootsHeld = true then
      if bodyInverted = true then v1 + MAG_BOOTS_FORCE / 1000 * dt
      else v1 - MAG_BOOTS_FORCE / 1000 * dt
    else v1
  let newY := st.y + v2 * dt
  let c := collideVertical bounds bodyInverted newY v2
  let sn := safetyNet bounds st.y c.2.1 st.floatingTime dt c.2.2.1 c.2.2.2
  { st1 with y := c.1
             verticalVelocity := sn.1
             onFloor := c.2.2.1
             onCeiling := c.2.2.2
             floatingTime := sn.2 }

/-- One frame of the orientation / vertical core of update: smooth the flip
angle toward its gravity-selected target, then run the body with the
collision branch selected by the smoothed angle (bodyInverted is the smoothed
flip angle exceeding pi/2, not the raw gravity sign). -/
noncomputable def controllerStep (bounds : CtrlBounds) (st : CtrlState)
    (gEff dt : ℝ) : CtrlState :=
  let flipAngle1 := flipStep st.flipAngle (flipTarget gEff st.flipAngle) dt
  if flipAngle1 > Real.pi / 2 then controllerStepWith true bounds st gEff dt flipAngle1
  else controllerStepWith false bounds st gEff dt flipAngle1

/-- update(deltaTime, altitudeKm): gravity is derived from the altitude via
the physics model. -/
noncomputable def controllerUpdate (bounds : CtrlBounds) (st : CtrlState)
    (deltaTime altitudeKm : ℝ) : CtrlState :=
  controllerStep bounds st (getEffectiveGravity altitudeKm) deltaTime

/-- The flip-angle sequence over a run of frames during which the effective
gravity is -0.1 m/s2 (the post-GEO side of the spec scenario), with frame
durations dts. -/
noncomputable def flipSeq (f0 : ℝ) (dts : ℕ → ℝ) : ℕ → ℝ
  | 0 => f0
  | n + 1 =>
    flipStep (flipSeq f0 dts n) (flipTarget (-(1 / 10)) (flipSeq f0 dts n)) (dts n)

lemma flipStep_no_overshoot (flipAngle target dt : ℝ) (hdt : 0 ≤ dt) :
    |flipStep flipAngle target dt - target| ≤ |flipAngle - target| ∧
    (flipAngle ≤ target →
      flipAngle ≤ flipStep flipAngle target dt ∧ flipStep flipAngle target dt ≤ target) ∧
    (target ≤ flipAngle →
      target ≤ flipStep flipAngle target dt ∧ flipStep flipAngle target dt ≤ flipAngle) := by
  have hk0 : 0 ≤ min 1 (dt * 2) := le_min (by norm_num) (by positivity)
  have hk1 : min 1 (dt * 2) ≤ 1 := min_le_left _ _
  unfold flipStep
  by_cases hs : |flipAngle + (target - flipAngle) * min 1 (dt * 2) - target| < 1 / 1000
  · rw [if_pos hs]
    refine ⟨by simp [abs_nonneg], fun h => ⟨h, le_refl _⟩, fun h => ⟨le_refl _, h⟩⟩
  · rw [if_neg hs]
    refine ⟨?_, fun h => ⟨by nlinarith, by nlinarith⟩, fun h => ⟨by nlinarith, by nlinarith⟩⟩
    have heq : flipAngle + (target - flipAngle) * min 1 (dt * 2) - target
        = (flipAngle - target) * (1 - min 1 (dt * 2)) := by ring
    rw [heq, abs_mul, abs_of_nonneg (by linarith : (0:ℝ) ≤ 1 - min 1 (dt * 2))]
    nlinarith [abs_nonneg (flipAngle - target)]

lemma flipStep_contraction (flipAngle target dt : ℝ) (hdt : 0 ≤ dt) :
    |flipStep flipAngle target dt - target|
      ≤ (1 - min 1 (dt * 2)) * |flipAngle - target| := by
  have hk0 : 0 ≤ min 1 (dt * 2) := le_min (by norm_num) (by positivity)
  have hk1 : min 1 (dt * 2) ≤ 1 := min_le_left _ _
  unfold flipStep
  by_cases hs : |flipAngle + (target - flipAngle) * min 1 (dt * 2) - target| < 1 / 1000
  · rw [if_pos hs]
    simp only [sub_self, abs_zero]
    exact mul_nonneg (by linarith) (abs_nonneg _)
  · rw [if_neg hs]
    have heq : flipAngle + (target - flipAngle) * min 1 (dt * 2) - target
        = (flipAngle - target) * (1 - min 1 (dt * 2)) := by ring
    rw [heq, abs_mul, abs_of_nonneg (by linarith : (0:ℝ) ≤ 1 - min 1 (dt * 2))]
    nlinarith [abs_nonneg (flipAngle - target)]

lemma flipTarget_neg_g (x : ℝ) : flipTarget (-(1 / 10)) x = Real.pi := by
  unfold flipTarget
  rw [if_pos (by norm_num)]

lemma flipSeq_le_pi (f0 : ℝ) (dts : ℕ → ℝ) (hdts : ∀ n, 0 ≤ dts n)
    (h0 : f0 ≤ Real.pi) : ∀ n, flipSeq f0 dts n ≤ Real.pi := by
  intro n
  induction n with
  | zero => exact h0
  | succ k ih =>
    show flipStep (flipSeq f0 dts k) (flipTarget (-(1 / 10)) (flipSeq f0 dts k)) (dts k)
        ≤ Real.pi
    rw [flipTarget_neg_g]
    exact (((flipStep_no_overshoot (flipSeq f0 dts k) Real.pi (dts k) (hdts k)).2.1) ih).2

lemma flipSeq_monotone (f0 : ℝ) (dts : ℕ → ℝ) (hdts : ∀ n, 0 ≤ dts n)
    (h0 : f0 ≤ Real.pi) : ∀ n, flipSeq f0 dts n ≤ flipSeq f0 dts (n + 1) := by
  intro n
  have hb := flipSeq_le_pi f0 dts hdts h0 n
  show flipSeq f0 dts n
      ≤ flipStep (flipSeq f0 dts n) (flipTarget (-(1 / 10)) (flipSeq f0 dts n)) (dts n)
  rw [flipTarget_neg_g]
  exact (((flipStep_no_overshoot (flipSeq f0 dts n) Real.pi (dts n) (hdts n)).2.1) hb).1

/-- C7: the flip-angle smoothing moves monotonically toward its target
without overshoot at every step and contracts the distance by the factor
1 - min(1, 2 * deltaTime); under the spec scenario (gravity -0.1 after the
GEO crossing) the flip-angle sequence is monotone nondecreasing and bounded
by pi; and the collision floor/ceiling branch of the frame is selected by
the smoothed flip angle crossing pi/2, not by the raw gravity sign — in
particular one frame after gravity jumps from +9.8 to -9.8 with the flip
still at 0, the smoothed angle is pi/5 and the upright branch is still
used. -/
theorem flip_smoothing_and_collision :
    (∀ (flipAngle target dt : ℝ), 0 ≤ dt →
      |flipStep flipAngle target dt - target| ≤ |flipAngle - target| ∧
      (flipAngle ≤ target →
        flipAngle ≤ flipStep flipAngle target dt ∧ flipStep flipAngle target dt ≤ target) ∧
      (target ≤ flipAngle →
        target ≤ flipStep flipAngle target dt ∧ flipStep flipAngle target dt ≤ flipAngle)) ∧
    (∀ (flipAngle target dt : ℝ), 0 ≤ dt →
      |flipStep flipAngle target dt - target|
        ≤ (1 - min 1 (dt * 2)) * |flipAngle - target|) ∧
    (∀ (f0 : ℝ) (dts : ℕ → ℝ), (∀ n, 0 ≤ dts n) → f0 ≤ Real.pi →
      (∀ n, flipSeq f0 dts n ≤ flipSeq f0 dts (n + 1)) ∧
      (∀ n, flipSeq f0 dts n ≤ Real.pi)) ∧
    (∀ (bounds : CtrlBounds) (st : CtrlState) (gEff dt : ℝ),
      (flipStep st.flipAngle (flipTarget gEff st.flipAngle) dt ≤ Real.pi / 2 →
        controllerStep bounds st gEff dt
          = controllerStepWith false bounds st gEff dt
              (flipStep st.flipAngle (flipTarget gEff st.flipAngle) dt)) ∧
      (flipStep st.flipAngle (flipTarget gEff st.flipAngle) dt > Real.pi / 2 →
        controllerStep bounds st gEff dt
          = controllerStepWith true bounds st gEff dt
              (flipStep st.flipAngle (flipTarget gEff st.flipAngle) dt))) ∧
    (flipStep 0 (flipTarget (-(98 / 10)) 0) (1 / 10) = Real.pi / 5 ∧
      Real.pi / 5 ≤ Real.pi / 2) := by
  refine ⟨flipStep_no_overshoot, flipStep_contraction, ?_, ?_, ?_, ?_⟩
  · intro f0 dts hdts h0
    exact ⟨flipSeq_monotone f0 dts hdts h0, flipSeq_le_pi f0 dts hdts h0⟩
  · intro bounds st gEff dt
    constructor
    · intro hle
      simp only [controllerStep]
      rw [if_neg (not_lt.mpr hle)]
    · intro hgt
      simp only [controllerStep]
      rw [if_pos hgt]
  · have htgt : flipTarget (-(98 / 10)) 0 = Real.pi := by
      unfold flipTarget
      rw [if_pos (by norm_num)]
    rw [htgt]
    unfold flipStep
    have hmin : min (1:ℝ) (1 / 10 * 2) = 1 / 5 := by
      rw [min_eq_right] <;> norm_num
    simp only [hmin]
    have harg : (0:ℝ) + (Real.pi - 0) * (1 / 5) = Real.pi / 5 := by ring
    rw [harg]
    rw [if_neg ?_]
    · have h3 := Real.pi_gt_three
      rw [abs_of_nonpos (by linarith)]
      intro hcon
      nlinarith
  · have hpos := Real.pi_pos
    linarith

lemma jumpSpeed_bounds (g : ℝ) : 0 < jumpSpeed g ∧ jumpSpeed g ≤ 3 := by
  simp only [jumpSpeed]
  by_cases hg : |g| > 1 / 10
  · rw [if_pos hg]
    constructor
    · apply lt_min (by norm_num)
      apply Real.sqrt_pos.mpr
      nlinarith [abs_nonneg g]
    · exact min_le_left _ _
  · rw [if_neg hg]
    rw [min_eq_right (by norm_num)]
    norm_num

lemma applyJump_onFloor (st : CtrlState) (g : ℝ) (hj : st.jumping = true)
    (hf : st.onFloor = true) :
    (applyJump st g).verticalVelocity = jumpSpeed g / 1000 := by
  simp [applyJump, hj, hf]

lemma applyJump_onCeiling (st : CtrlState) (g : ℝ) (hj : st.jumping = true)
    (hf : st.onFloor = false) (hc : st.onCeiling = true) :
    (applyJump st g).verticalVelocity = -(jumpSpeed g / 1000) := by
  simp [applyJump, hj, hf, hc]

lemma applyJump_airborne (st : CtrlState) (g : ℝ)
    (hf : st.onFloor = false) (hc : st.onCeiling = false) :
    (applyJump st g).verticalVelocity = st.verticalVelocity := by
  by_cases hj : st.jumping = true
  · simp [applyJump, hj, hf, hc]
  · simp [applyJump, hj]

/-- C10: the jump block changes the vertical velocity only from a contact
surface; the jump speed is min(3, sqrt(2 * gAbs * 2)) m/s when the absolute
effective gravity exceeds 0.1 m/s2 and the fixed fallback 0.63 m/s otherwise
(in particular 0.63 at exactly zero gravity); hence for every altitude a jump
from the floor sets a positive vertical velocity and one from the ceiling a
negative one, of magnitude at most 3 m/s (3/1000 km/s in controller
units). -/
theorem jump_speed_and_contact :
    (∀ g : ℝ, 0 < jumpSpeed g ∧ jumpSpeed g ≤ 3) ∧
    (∀ g : ℝ, |g| > 1 / 10 → jumpSpeed g = min 3 (Real.sqrt (2 * |g| * 2))) ∧
    (∀ g : ℝ, ¬(|g| > 1 / 10) → jumpSpeed g = 63 / 100) ∧
    jumpSpeed 0 = 63 / 100 ∧
    (∀ (st : CtrlState) (g : ℝ), st.jumping = true → st.onFloor = true →
      (applyJump st g).verticalVelocity = jumpSpeed g / 1000) ∧
    (∀ (st : CtrlState) (g : ℝ), st.jumping = true → st.onFloor = false →
      st.onCeiling = true →
      (applyJump st g).verticalVelocity = -(jumpSpeed g / 1000)) ∧
    (∀ (st : CtrlState) (g : ℝ), st.onFloor = false → st.onCeiling = false →
      (applyJump st g).verticalVelocity = st.verticalVelocity) ∧
    (∀ (a : ℝ) (st : CtrlState), st.jumping = true → st.onFloor = true →
      0 < (applyJump st (getEffectiveGravity a)).verticalVelocity ∧
      (applyJump st (getEffectiveGravity a)).verticalVelocity ≤ 3 / 1000) := by
  refine ⟨jumpSpeed_bounds, ?_, ?_, ?_, applyJump_onFloor, applyJump_onCeiling,
    applyJump_airborne, ?_⟩
  · intro g hg
    simp only [jumpSpeed]
    rw [if_pos hg]
  · intro g hg
    simp only [jumpSpeed]
    rw [if_neg hg]
    rw [min_eq_right (by norm_num)]
  · simp only [jumpSpeed]
    rw [if_neg (by norm_num)]
    rw [min_eq_right (by norm_num)]
  · intro a st hj hf
    rw [applyJump_onFloor st (getEffectiveGravity a) hj hf]
    have hb := jumpSpeed_bounds (getEffectiveGravity a)
    constructor
    · exact div_pos hb.1 (by norm_num)
    · linarith [hb.2]

end SpaceElevator
